import Mathlib

/-!
# Verification of the meditwin-lite metric pipeline

A shallow embedding, in Lean 4, of the decision logic of the meditwin-lite
repository: the metric extractor and document classifier
(`services/document_classifier.py`), the severity assessor, trend comparator
and fallback narrative generator (`routes/documents.py`), together with
theorems settling the frozen claims about them.

Modelling conventions:

* Python strings are modelled as `List Char` (abbreviated `Str`); string
  literals enter through `sl`.
* Python numbers are modelled as exact rationals (`ℚ`) and integers (`ℤ`).
  IEEE-754 rounding, `inf`/`nan` and the scientific-notation switch of
  `repr(float)` are outside the model: a decimal literal denotes its exact
  rational value and is rendered back in plain decimal form.
* Fallible Python code (`float(...)`, `int(...)`, indexing) is modelled with
  `Option`/`Except`; a `try/except` block becomes an explicit `Except` escape.
* The regular-expression engine mirrors `re.search` for the exact patterns the
  source uses: leftmost match, alternatives in priority order, greedy/lazy
  quantifiers by result ordering.  All repetition bodies appearing in the
  source patterns consume at least one character, which the engine exploits
  for termination.
-/

set_option maxHeartbeats 2000000
set_option maxRecDepth 10000

namespace MediTwin

/-- Python strings are modelled as lists of characters. -/
abbrev Str := List Char

/-- A Lean string literal as a `Str`. -/
def sl (s : String) : Str := s.data

/-- ASCII decimal digit test (`0`-`9`), as used by the regex class `\d`
and by `int()`/`float()` parsing. -/
def isDig (c : Char) : Bool := '0' ≤ c && c ≤ '9'

/-- ASCII whitespace, as matched by the regex class `\s` and stripped by
Python `int()`/`float()`: space, tab, newline, vertical tab, form feed,
carriage return. -/
def isWs (c : Char) : Bool :=
  c = ' ' || c = '\t' || c = '\n' || c = '\x0b' || c = '\x0c' || c = '\r'

/-- `str.upper()` on an ASCII character: map `a`-`z` to `A`-`Z`. -/
def chUpper (c : Char) : Char :=
  if 'a' ≤ c ∧ c ≤ 'z' then Char.ofNat (c.toNat - 32) else c

/-- `str.upper()` of a whole string (ASCII part of Python semantics). -/
def upperStr (s : Str) : Str := s.map chUpper

/-- Numeric value of a decimal digit character. -/
def digVal (c : Char) : ℕ := c.toNat - 48

/-- The natural number denoted by a most-significant-first digit string. -/
def natOfDigits (l : Str) : ℕ := l.foldl (fun a c => a * 10 + digVal c) 0

/-- Longest all-digit prefix of a string, together with the rest. -/
def takeDigits : Str → Str × Str
  | [] => ([], [])
  | c :: r =>
    if isDig c then
      let p := takeDigits r
      (c :: p.1, p.2)
    else ([], c :: r)

/-- Strip leading and trailing whitespace, as Python `int()`/`float()` do
before parsing. -/
def stripWs (s : Str) : Str :=
  ((s.dropWhile isWs).reverse.dropWhile isWs).reverse

/-- Consume an optional sign, returning the signed multiplier and the rest. -/
def takeSign : Str → ℤ × Str
  | [] => (1, [])
  | c :: r =>
    if c = '+' then (1, r)
    else if c = '-' then (-1, r)
    else (1, c :: r)

/-- `10^e` as a rational, for a possibly negative integer exponent. -/
def pow10 (e : ℤ) : ℚ :=
  if 0 ≤ e then ((10 : ℚ) ^ e.toNat) else 1 / ((10 : ℚ) ^ (-e).toNat)

/-- The optional exponent tail of a float literal (`e`/`E`, sign, digits),
which must be followed by end of string.  `some e` means the remaining
input was a well-formed (possibly empty) exponent part. -/
def takeExpTail : Str → Option ℤ
  | [] => some 0
  | c :: r =>
    if c = 'e' ∨ c = 'E' then
      let (sg, r1) := takeSign r
      let (ds, r2) := takeDigits r1
      if ds = [] ∨ r2 ≠ [] then none else some (sg * (natOfDigits ds : ℤ))
    else none

/-- Python `float(s)` on a string, idealised over exact rationals: optional
whitespace and sign, then `digits[.digits]`, `.digits` or `digits.`, with an
optional decimal exponent; the whole string must be consumed.  The special
forms `inf`/`nan` and underscore separators are outside the model. -/
def pyFloat? (s : Str) : Option ℚ :=
  let t := stripWs s
  let (sg, t1) := takeSign t
  let (ip, t2) := takeDigits t1
  if t2.head? = some '.' then
    let (fp, t4) := takeDigits t2.tail
    if ip = [] ∧ fp = [] then none
    else
      (takeExpTail t4).map fun e =>
        (sg : ℚ) * ((natOfDigits ip : ℚ) + (natOfDigits fp : ℚ) / 10 ^ fp.length)
          * pow10 e
  else
    if ip = [] then none
    else
      (takeExpTail t2).map fun e => (sg : ℚ) * (natOfDigits ip : ℚ) * pow10 e

/-- Python `int(s)` on a string: optional whitespace and sign, then one or
more digits consuming the whole string (underscore separators outside the
model).  Leading zeros are accepted, as in Python. -/
def pyInt? (s : Str) : Option ℤ :=
  let t := stripWs s
  let (sg, t1) := takeSign t
  let (ds, r) := takeDigits t1
  if ds = [] ∨ r ≠ [] then none else some (sg * (natOfDigits ds : ℤ))

/-- Python `s.split()` with no argument: split on runs of whitespace,
discarding empty pieces. -/
def splitWsAux : Str → Str → List Str
  | [], cur => if cur = [] then [] else [cur.reverse]
  | c :: rest, cur =>
    if isWs c then
      if cur = [] then splitWsAux rest []
      else cur.reverse :: splitWsAux rest []
    else splitWsAux rest (c :: cur)

/-- Python `s.split()` (whitespace splitting, empties dropped). -/
def splitWs (s : Str) : List Str := splitWsAux s []

/-- Python `s.split(sep)` for a one-character separator: always returns at
least one (possibly empty) piece. -/
def splitOnCh (sep : Char) : Str → List Str
  | [] => [[]]
  | c :: rest =>
    if c = sep then [] :: splitOnCh sep rest
    else
      match splitOnCh sep rest with
      | t :: ts => (c :: t) :: ts
      | [] => [[c]]

/-- `s.replace('%', '')`: remove every percent sign. -/
def dropPct (s : Str) : Str := s.filter (fun c => !(c = '%'))

/-- Python `', '.join(xs)`. -/
def joinComma : List Str → Str
  | [] => []
  | [x] => x
  | x :: xs => x ++ sl ", " ++ joinComma xs

/-- Substring test (`needle in haystack` on Python strings). -/
def containsStr (hay needle : Str) : Bool :=
  match hay with
  | [] => needle = []
  | _ :: t => needle.isPrefixOf hay || containsStr t needle

/-- The character of a decimal digit. -/
def digitChar : ℕ → Char
  | 0 => '0'
  | 1 => '1'
  | 2 => '2'
  | 3 => '3'
  | 4 => '4'
  | 5 => '5'
  | 6 => '6'
  | 7 => '7'
  | 8 => '8'
  | 9 => '9'
  | _ => '?'

/-- Canonical decimal rendering of a natural number (no leading zeros),
as produced by Python string formatting of an `int`. -/
def natReprAux : ℕ → ℕ → Str → Str
  | 0, n, acc => digitChar (n % 10) :: acc
  | fuel + 1, n, acc =>
    if n < 10 then digitChar (n % 10) :: acc
    else natReprAux fuel (n / 10) (digitChar (n % 10) :: acc)

/-- Decimal digits of a natural number, most significant first. -/
def natRepr (n : ℕ) : Str := natReprAux n n []

/-! ## A small regular-expression engine

Just enough of Python `re` for the patterns used by the source: literal
characters, character classes, concatenation, alternation (left-priority),
greedy and lazy repetition, and capturing groups.  `{m,n}` counters, `+` and
`?` are desugared into this core by the pattern-building helpers below. -/

/-- Character classes occurring in the source patterns. -/
inductive CKind where
  /-- a contiguous character range, e.g. `\d` as `rng '0' '9'` -/
  | rng (lo hi : Char)
  /-- the class `\s` -/
  | space
  /-- `.` (any character except newline) -/
  | anyNoNl
  /-- the class `[/\s]` -/
  | slashOrSpace
  /-- the class of a dash or a slash -/
  | dashOrSlash
  /-- the class `[:\s]` -/
  | colonOrSpace
  deriving DecidableEq

/-- Whether a character belongs to a class. -/
def CKind.holds : CKind → Char → Bool
  | .rng lo hi, c => lo ≤ c && c ≤ hi
  | .space, c => isWs c
  | .anyNoNl, c => !(c = '\n')
  | .slashOrSpace, c => c = '/' || isWs c
  | .dashOrSlash, c => c = '-' || c = '/'
  | .colonOrSpace, c => c = ':' || isWs c

/-- Regular-expression abstract syntax. -/
inductive RE where
  | eps
  | ch (c : Char)
  | cls (k : CKind)
  | seq (a b : RE)
  | alt (a b : RE)
  /-- `star true a` is greedy `a*`, `star false a` is lazy `a*?` -/
  | star (greedy : Bool) (a : RE)
  | grp (a : RE)
  deriving DecidableEq

/-- One match candidate: the consumed prefix, the remaining input, and the
captured groups in order. -/
structure MRes where
  consumed : Str
  rest : Str
  caps : List Str
  deriving DecidableEq

/-- Repetition matcher: all ways of matching `a*` against `s` given the list
of match candidates `m s'` of the body on any input `s'`, in Python priority
order (`greedy` = longest first).  An iteration is continued only when the
body consumed at least one character; every repetition body in the source
patterns consumes at least one character, so this agrees with `re`.  The
fuel is always instantiated with the input length, which suffices because
each continued iteration shortens the input. -/
def mstarF : ℕ → (Str → List MRes) → Bool → Str → List MRes
  | 0, _, _, s => [⟨[], s, []⟩]
  | fuel + 1, m, g, s =>
    let deeper :=
      (m s).flatMap fun r1 =>
        if r1.rest.length < s.length then
          (mstarF fuel m g r1.rest).map fun r2 =>
            ⟨r1.consumed ++ r2.consumed, r2.rest, r1.caps ++ r2.caps⟩
        else []
    if g then deeper ++ [⟨[], s, []⟩] else ⟨[], s, []⟩ :: deeper

/-- All match candidates of a regex against a prefix of `s`, in Python
backtracking priority order. -/
def matchRE : RE → Str → List MRes
  | .eps, s => [⟨[], s, []⟩]
  | .ch c, s =>
    match s with
    | [] => []
    | x :: xs => if x = c then [⟨[x], xs, []⟩] else []
  | .cls k, s =>
    match s with
    | [] => []
    | x :: xs => if k.holds x then [⟨[x], xs, []⟩] else []
  | .seq a b, s =>
    (matchRE a s).flatMap fun r1 =>
      (matchRE b r1.rest).map fun r2 =>
        ⟨r1.consumed ++ r2.consumed, r2.rest, r1.caps ++ r2.caps⟩
  | .alt a b, s => matchRE a s ++ matchRE b s
  | .star g a, s => mstarF s.length (matchRE a) g s
  | .grp a, s =>
    (matchRE a s).map fun r => ⟨r.consumed, r.rest, r.consumed :: r.caps⟩

/-- `re.search`: the first match candidate at the leftmost position where the
pattern matches at all. -/
def search (r : RE) (s : Str) : Option MRes :=
  match matchRE r s with
  | res :: _ => some res
  | [] =>
    match s with
    | [] => none
    | _ :: xs => search r xs

/-- `re.match` as used by `strptime`: the priority-first candidate anchored at
position 0, accepted only if it consumed the whole input ("unconverted data
remains" otherwise). -/
def matchFull (r : RE) (s : Str) : Option (List Str) :=
  match matchRE r s with
  | res :: _ => if res.rest = [] then some res.caps else none
  | [] => none

/-! ### Pattern-building helpers -/

/-- Concatenation of a list of regexes. -/
def rcat (l : List RE) : RE := l.foldr RE.seq RE.eps

/-- A literal string as a regex. -/
def rstr (s : String) : RE := rcat (s.data.map RE.ch)

/-- Greedy `r?`. -/
def ropt (r : RE) : RE := RE.alt r RE.eps

/-- Greedy `r+`. -/
def rplus (r : RE) : RE := RE.seq r (RE.star true r)

/-- The class `\d`. -/
def rdig : RE := RE.cls (.rng '0' '9')

/-- `[:\s]*`, the label/value separator used throughout the patterns. -/
def rsep : RE := RE.star true (RE.cls .colonOrSpace)

/-- `\s*`. -/
def rws : RE := RE.star true (RE.cls .space)

/-- `\s+`. -/
def rws1 : RE := rplus (RE.cls .space)

/-- `\d{2,3}` (greedy, longest first). -/
def rdig23 : RE := rcat [rdig, rdig, ropt rdig]

/-- `\d{1,2}` (greedy). -/
def rdig12 : RE := rcat [rdig, ropt rdig]

/-- `\d{2,4}` (greedy: four, then three, then two digits). -/
def rdig24 : RE := rcat [rdig, rdig, ropt (RE.seq rdig (ropt rdig))]

/-- The capture-group body `\d+\.?\d*` shared by all HbA1c (and
hemoglobin/creatinine) patterns. -/
def rfloatG : RE := rcat [rplus rdig, ropt (RE.ch '.'), RE.star true rdig]

/-- The capture-group body `\d+` shared by the glucose/cholesterol patterns. -/
def rintG : RE := rplus rdig

/-- `(?:MG/DL|MGDL)?`. -/
def rmgdl : RE := ropt (RE.alt (rstr "MG/DL") (rstr "MGDL"))

/-! ## The source patterns (`services/document_classifier.py`) -/

/-- `HBA1C[:\s]*\(.*?\)\s*(\d+\.?\d*)\s*%` -/
def hp1 : RE :=
  rcat [rstr "HBA1C", rsep, RE.ch '(', RE.star false (RE.cls .anyNoNl),
    RE.ch ')', rws, RE.grp rfloatG, rws, RE.ch '%']

/-- `HBA1C[:\s]*(\d+\.?\d*)\s*%` -/
def hp2 : RE := rcat [rstr "HBA1C", rsep, RE.grp rfloatG, rws, RE.ch '%']

/-- `HBA1C[:\s]*(\d+\.?\d*)` -/
def hp3 : RE := rcat [rstr "HBA1C", rsep, RE.grp rfloatG]

/-- `GLYCATED\s+HEMOGLOBIN[:\s]*(\d+\.?\d*)\s*%` -/
def hp4 : RE :=
  rcat [rstr "GLYCATED", rws1, rstr "HEMOGLOBIN", rsep, RE.grp rfloatG, rws, RE.ch '%']

/-- `A1C[:\s]*(\d+\.?\d*)\s*%` -/
def hp5 : RE := rcat [rstr "A1C", rsep, RE.grp rfloatG, rws, RE.ch '%']

/-- `HEMOGLOBIN\s+A1C[:\s]*(\d+\.?\d*)` -/
def hp6 : RE := rcat [rstr "HEMOGLOBIN", rws1, rstr "A1C", rsep, RE.grp rfloatG]

/-- The ordered HbA1c pattern list. -/
def hba1cPatterns : List RE := [hp1, hp2, hp3, hp4, hp5, hp6]

/-- `FASTING\s+BLOOD\s+GLUCOSE\s+(\d+)\s+MG[/\s]*DL` -/
def gp1 : RE :=
  rcat [rstr "FASTING", rws1, rstr "BLOOD", rws1, rstr "GLUCOSE", rws1,
    RE.grp rintG, rws1, rstr "MG", RE.star true (RE.cls .slashOrSpace), rstr "DL"]

/-- `FASTING\s+(?:BLOOD\s+)?GLUCOSE[:\s]*(\d+)\s*(?:MG/DL|MGDL)?` -/
def gp2 : RE :=
  rcat [rstr "FASTING", rws1, ropt (rcat [rstr "BLOOD", rws1]), rstr "GLUCOSE",
    rsep, RE.grp rintG, rws, rmgdl]

/-- `FBS[:\s]*(\d+)\s*(?:MG/DL|MGDL)?` -/
def gp3 : RE := rcat [rstr "FBS", rsep, RE.grp rintG, rws, rmgdl]

/-- `FBG[:\s]*(\d+)\s*(?:MG/DL|MGDL)?` -/
def gp4 : RE := rcat [rstr "FBG", rsep, RE.grp rintG, rws, rmgdl]

/-- `RANDOM\s+(?:BLOOD\s+)?GLUCOSE[:\s]*(\d+)\s*(?:MG/DL|MGDL)?` -/
def gp5 : RE :=
  rcat [rstr "RANDOM", rws1, ropt (rcat [rstr "BLOOD", rws1]), rstr "GLUCOSE",
    rsep, RE.grp rintG, rws, rmgdl]

/-- `RBS[:\s]*(\d+)\s*(?:MG/DL|MGDL)?` -/
def gp6 : RE := rcat [rstr "RBS", rsep, RE.grp rintG, rws, rmgdl]

/-- `BLOOD\s+GLUCOSE[:\s]*(\d+)\s*(?:MG/DL|MGDL)?` -/
def gp7 : RE := rcat [rstr "BLOOD", rws1, rstr "GLUCOSE", rsep, RE.grp rintG, rws, rmgdl]

/-- `GLUCOSE[:\s]*(\d+)\s*(?:MG/DL|MGDL)?` -/
def gp8 : RE := rcat [rstr "GLUCOSE", rsep, RE.grp rintG, rws, rmgdl]

/-- `BLOOD\s+SUGAR[:\s]*(\d+)\s*(?:MG/DL|MGDL)?` -/
def gp9 : RE := rcat [rstr "BLOOD", rws1, rstr "SUGAR", rsep, RE.grp rintG, rws, rmgdl]

/-- The ordered glucose pattern list. -/
def glucosePatterns : List RE := [gp1, gp2, gp3, gp4, gp5, gp6, gp7, gp8, gp9]

/-- `(?:BLOOD\s+PRESSURE|BP)[:\s]*(\d{2,3})/(\d{2,3})\s*(?:MMHG|MM HG)?` -/
def bpPattern : RE :=
  rcat [RE.alt (rcat [rstr "BLOOD", rws1, rstr "PRESSURE"]) (rstr "BP"), rsep,
    RE.grp rdig23, RE.ch '/', RE.grp rdig23, rws,
    ropt (RE.alt (rstr "MMHG") (rstr "MM HG"))]

/-- `TOTAL\s+CHOLESTEROL[:\s]*(\d+)\s*(?:MG/DL|MGDL)?` -/
def cp1 : RE := rcat [rstr "TOTAL", rws1, rstr "CHOLESTEROL", rsep, RE.grp rintG, rws, rmgdl]

/-- `CHOLESTEROL[:\s]*(\d+)\s*(?:MG/DL|MGDL)?` -/
def cp2 : RE := rcat [rstr "CHOLESTEROL", rsep, RE.grp rintG, rws, rmgdl]

/-- The ordered cholesterol pattern list. -/
def cholesterolPatterns : List RE := [cp1, cp2]

/-- `HEMOGLOBIN[:\s]*(\d+\.?\d*)\s*(?:G/DL|GDL|GM/DL)?` -/
def hgp1 : RE :=
  rcat [rstr "HEMOGLOBIN", rsep, RE.grp rfloatG, rws,
    ropt (RE.alt (rstr "G/DL") (RE.alt (rstr "GDL") (rstr "GM/DL")))]

/-- `HB[:\s]*(\d+\.?\d*)\s*(?:G/DL|GDL)?` -/
def hgp2 : RE :=
  rcat [rstr "HB", rsep, RE.grp rfloatG, rws, ropt (RE.alt (rstr "G/DL") (rstr "GDL"))]

/-- The ordered hemoglobin pattern list. -/
def hemoglobinPatterns : List RE := [hgp1, hgp2]

/-- `CREATININE[:\s]*(\d+\.?\d*)\s*(?:MG/DL|MGDL)?` -/
def crPattern : RE := rcat [rstr "CREATININE", rsep, RE.grp rfloatG, rws, rmgdl]

/-- `(?:REPORT\s+DATE|DATE)` -/
def dateLabel : RE := RE.alt (rcat [rstr "REPORT", rws1, rstr "DATE"]) (rstr "DATE")

/-- a numeric date `\d{1,2}[dash slash]\d{1,2}[dash slash]\d{2,4}` -/
def dnum : RE :=
  rcat [rdig12, RE.cls .dashOrSlash, rdig12, RE.cls .dashOrSlash, rdig24]

/-- `(?:REPORT\s+DATE|DATE)[:\s]*(\d{1,2}[dash slash]\d{1,2}[dash slash]\d{2,4})` -/
def dp1 : RE := rcat [dateLabel, rsep, RE.grp dnum]

/-- `(?:JAN|FEB|MAR|APR|MAY|JUN|JUL|AUG|SEP|OCT|NOV|DEC)` -/
def monthNames : RE :=
  RE.alt (rstr "JAN") (RE.alt (rstr "FEB") (RE.alt (rstr "MAR")
    (RE.alt (rstr "APR") (RE.alt (rstr "MAY") (RE.alt (rstr "JUN")
    (RE.alt (rstr "JUL") (RE.alt (rstr "AUG") (RE.alt (rstr "SEP")
    (RE.alt (rstr "OCT") (RE.alt (rstr "NOV") (rstr "DEC")))))))))))

/-- `(?:REPORT\s+DATE|DATE)[:\s]*(\d{1,2}\s+(?:JAN|...|DEC)[A-Z]*\s+\d{2,4})` -/
def dp2 : RE :=
  rcat [dateLabel, rsep,
    RE.grp (rcat [rdig12, rws1, monthNames, RE.star true (RE.cls (.rng 'A' 'Z')),
      rws1, rdig24])]

/-- the fall-back bare numeric date pattern `(\d{1,2}[dash slash]\d{1,2}[dash slash]\d{2,4})` -/
def dp3 : RE := RE.grp dnum

/-! ## Metric extraction (`extract_medical_metrics`) -/

/-- An extracted-metrics mapping: each key is optional, absence meaning "not
found in this document". -/
structure MetricSet where
  hba1c : Option Str := none
  glucose : Option Str := none
  blood_pressure : Option Str := none
  cholesterol : Option Str := none
  hemoglobin : Option Str := none
  creatinine : Option Str := none
  deriving DecidableEq

/-- The empty metrics mapping. -/
def emptyMetrics : MetricSet := {}

/-- Try an ordered list of patterns, returning the first search result
(first-match-wins as in the source loops). -/
def firstSearch : List RE → Str → Option MRes
  | [], _ => none
  | p :: ps, u =>
    match search p u with
    | some r => some r
    | none => firstSearch ps u

/-- `repr(float(g))` for a plain decimal literal `g` (digits, optionally a
dot and digits), idealised over exact decimals: strip leading zeros of the
integer part and trailing zeros of the fraction, and render with at least
one fractional digit, e.g. `"6.80"` to `"6.8"` and `"12"` to `"12.0"`. -/
def canonFloat (g : Str) : Str :=
  let p := takeDigits g
  let fp := if p.2.head? = some '.' then (takeDigits p.2.tail).1 else []
  let ip0 := p.1.dropWhile (fun c => c = '0')
  let ip1 := if ip0 = [] then ['0'] else ip0
  let fp1 := (fp.reverse.dropWhile (fun c => c = '0')).reverse
  ip1 ++ '.' :: (if fp1 = [] then ['0'] else fp1)

/-- The exact rational value of a plain decimal literal (the idealised
`float(g)`). -/
def litVal (g : Str) : ℚ :=
  let p := takeDigits g
  let fp := if p.2.head? = some '.' then (takeDigits p.2.tail).1 else []
  (natOfDigits p.1 : ℚ) + (natOfDigits fp : ℚ) / 10 ^ fp.length

/-- `extract_medical_metrics`: uppercase the text, then for each metric try
its ordered pattern list; the first match wins and its capture group is
re-rendered into the canonical display string. -/
def extract_medical_metrics (text : Str) : MetricSet :=
  let u := upperStr text
  { hba1c := (firstSearch hba1cPatterns u).map fun r =>
      canonFloat (r.caps.getD 0 []) ++ ['%'],
    glucose := (firstSearch glucosePatterns u).map fun r =>
      natRepr (natOfDigits (r.caps.getD 0 [])) ++ sl " mg/dL",
    blood_pressure := (search bpPattern u).map fun r =>
      r.caps.getD 0 [] ++ '/' :: (r.caps.getD 1 [] ++ sl " mmHg"),
    cholesterol := (firstSearch cholesterolPatterns u).map fun r =>
      r.caps.getD 0 [] ++ sl " mg/dL",
    hemoglobin := (firstSearch hemoglobinPatterns u).map fun r =>
      r.caps.getD 0 [] ++ sl " g/dL",
    creatinine := (search crPattern u).map fun r =>
      r.caps.getD 0 [] ++ sl " mg/dL" }

/-! ## Date extraction (`extract_report_date`) -/

/-- Days in a month of a (proleptic Gregorian) year, as validated by
`datetime`. -/
def daysInMonth (m y : ℕ) : ℕ :=
  if m = 2 then
    if y % 4 = 0 ∧ (y % 100 ≠ 0 ∨ y % 400 = 0) then 29 else 28
  else if m = 4 ∨ m = 6 ∨ m = 9 ∨ m = 11 then 30
  else 31

/-- The `strptime` regex for `%d`, per CPython `TimeRE`:
`3[01]|[12]\d|0[1-9]|[1-9]`. -/
def dayRE : RE :=
  RE.alt (rcat [RE.ch '3', RE.cls (.rng '0' '1')])
    (RE.alt (rcat [RE.cls (.rng '1' '2'), rdig])
      (RE.alt (rcat [RE.ch '0', RE.cls (.rng '1' '9')]) (RE.cls (.rng '1' '9'))))

/-- The `strptime` regex for `%m`: `1[0-2]|0[1-9]|[1-9]`. -/
def monRE : RE :=
  RE.alt (rcat [RE.ch '1', RE.cls (.rng '0' '2')])
    (RE.alt (rcat [RE.ch '0', RE.cls (.rng '1' '9')]) (RE.cls (.rng '1' '9')))

/-- The full-match regex of format `%d<sep>%m<sep>%Y` (`y4 = true`, four year
digits) or `%d<sep>%m<sep>%y` (two year digits). -/
def fmtRE (sep : Char) (y4 : Bool) : RE :=
  rcat [RE.grp dayRE, RE.ch sep, RE.grp monRE, RE.ch sep,
    RE.grp (if y4 then rcat [rdig, rdig, rdig, rdig] else rcat [rdig, rdig])]

/-- `datetime.strptime(ds, "%d<sep>%m<sep>%Y|%y")`: regex full-match, then
the `datetime` range checks (year 1..9999, day within month, `%y` pivot
69). Returns `(year, month, day)`. -/
def strptimeDMY (sep : Char) (y4 : Bool) (ds : Str) : Option (ℕ × ℕ × ℕ) :=
  match matchFull (fmtRE sep y4) ds with
  | some [d, m, y] =>
    let dv := natOfDigits d
    let mv := natOfDigits m
    let yv := if y4 then natOfDigits y
      else if natOfDigits y ≤ 68 then 2000 + natOfDigits y else 1900 + natOfDigits y
    if 1 ≤ yv ∧ dv ≤ daysInMonth mv yv then some (yv, mv, dv) else none
  | _ => none

/-- Zero-pad a decimal rendering to width 2. -/
def pad2 (n : ℕ) : Str := if n < 10 then '0' :: natRepr n else natRepr n

/-- Zero-pad a decimal rendering to width 4. -/
def pad4 (n : ℕ) : Str :=
  let r := natRepr n
  List.replicate (4 - r.length) '0' ++ r

/-- `datetime(y, m, d).isoformat()`: `YYYY-MM-DDT00:00:00`. -/
def isoDT : ℕ × ℕ × ℕ → Str
  | (y, m, d) => pad4 y ++ '-' :: (pad2 m ++ '-' :: (pad2 d ++ sl "T00:00:00"))

/-- The inner format loop of `extract_report_date`: try the four formats in
order and return the ISO rendering of the first that parses.  When all four
fail the loop falls through: the `return date_str` fallback in the source is
dead code (the inner `except: continue` already swallowed every `strptime`
failure, so the outer `except` can never fire). -/
def tryFormats (ds : Str) : Option Str :=
  ((strptimeDMY '-' true ds <|> strptimeDMY '/' true ds)
    <|> (strptimeDMY '-' false ds <|> strptimeDMY '/' false ds)).map isoDT

/-- One iteration of the pattern loop of `extract_report_date`. -/
def dateFromPattern (p : RE) (u : Str) : Option Str :=
  (search p u).bind fun r => tryFormats (r.caps.getD 0 [])

/-- `extract_report_date`: uppercase, try the three date patterns in order;
for a pattern that matches, return the ISO form of the first format that
parses, otherwise continue with the next pattern; `none` when the loop
ends. -/
def extract_report_date (text : Str) : Option Str :=
  let u := upperStr text
  (dateFromPattern dp1 u <|> dateFromPattern dp2 u) <|> dateFromPattern dp3 u

/-! ## Document classification (`classify_document_stub`) -/

/-- Python truthiness of an optional string: an absent or empty value is
falsy. -/
def truthy : Option Str → Option Str
  | some [] => none
  | some s => some s
  | none => none

/-- The classifier result record. -/
structure Classification where
  documentType : Str
  isDiabetesReport : Bool
  reportDate : Option Str
  metrics : MetricSet
  deriving DecidableEq

/-- `classify_document_stub`: extract metrics and date, flag a diabetes
report iff `hba1c` or `glucose` is (truthily) present, and pick the document
type by fixed precedence. -/
def classify_document_stub (text : Str) : Classification :=
  let u := upperStr text
  let metrics := extract_medical_metrics text
  let is_diabetes := (truthy metrics.hba1c).isSome || (truthy metrics.glucose).isSome
  let dt :=
    if is_diabetes then sl "DIABETES_LAB_REPORT"
    else if containsStr u (sl "DISCHARGE") && containsStr u (sl "SUMMARY") then
      sl "DISCHARGE_SUMMARY"
    else if containsStr u (sl "PRESCRIPTION") then sl "PRESCRIPTION"
    else if containsStr u (sl "LAB") || containsStr u (sl "REPORT") then sl "LAB_REPORT"
    else sl "OTHER"
  { documentType := dt,
    isDiabetesReport := is_diabetes,
    reportDate := extract_report_date text,
    metrics := metrics }

/-! ## Severity assessment (`assess_metric_severity`) -/

/-- Severity bands. -/
inductive Level where
  | NORMAL
  | ELEVATED
  | WARNING
  | CRITICAL
  deriving DecidableEq

/-- The per-metric severity record. -/
structure SeverityRecord where
  level : Level
  color : Str
  label : Str
  message : Str
  deriving DecidableEq

/-- The `severity` mapping built by `assess_metric_severity` (it only ever
holds these four keys). -/
structure SevMap where
  hba1c : Option SeverityRecord := none
  glucose : Option SeverityRecord := none
  blood_pressure : Option SeverityRecord := none
  cholesterol : Option SeverityRecord := none
  deriving DecidableEq

/-- The whole-document severity assessment. -/
structure Assessment where
  severity : SevMap
  criticalAlerts : Option (List Str)
  hasCritical : Bool
  hasWarning : Bool
  deriving DecidableEq

/-- The numeric parse of an HbA1c value string:
`float(s.replace('%', ''))`. -/
def parse_hba1c (s : Str) : Option ℚ := pyFloat? (dropPct s)

/-- The numeric parse of a `"<int> unit"` value string:
`int(s.split()[0])`. -/
def parse_int_tok (s : Str) : Option ℤ := (splitWs s).head?.bind pyInt?

/-- The numeric parse of a `"<int> unit"` value string as a float:
`float(s.split()[0])` (used by the trend comparator for glucose). -/
def parse_float_tok (s : Str) : Option ℚ := (splitWs s).head?.bind pyFloat?

/-- The blood-pressure parse of the severity assessor:
`parts = s.split('/'); int(parts[0]), int(parts[1].split()[0])`. -/
def parse_bp (s : Str) : Option (ℤ × ℤ) :=
  let parts := splitOnCh '/' s
  match parts.get? 0, parts.get? 1 with
  | some p0, some p1 =>
    (pyInt? p0).bind fun sy => (parse_int_tok p1).map fun di => (sy, di)
  | _, _ => none

/-- The blood-pressure parse of the trend comparator:
`int(s.split('/')[0])` (systolic only). -/
def parse_bp_sys (s : Str) : Option ℤ := (splitOnCh '/' s).head?.bind pyInt?

/-- The HbA1c block of `assess_metric_severity`: the optional severity
record for the key and the alert strings it appends.  A missing, falsy or
unparseable value contributes nothing (`except: pass`). -/
def hba1cSeverity (v : Option Str) : Option SeverityRecord × List Str :=
  match truthy v with
  | none => (none, [])
  | some s =>
    match parse_hba1c s with
    | none => (none, [])
    | some x =>
      if x ≥ 9 then
        (some ⟨.CRITICAL, sl "red", sl "CRITICALLY HIGH",
          sl "Your HbA1c of " ++ s ++ sl " is critically high"⟩,
         [sl "⚠️ URGENT: HbA1c " ++ s ++
          sl " is critically high - contact your doctor immediately"])
      else if x ≥ 6.5 then
        (some ⟨.WARNING, sl "yellow", sl "DIABETES RANGE",
          sl "HbA1c " ++ s ++ sl " indicates diabetes"⟩,
         [sl "⚠️ WARNING: HbA1c " ++ s ++
          sl " is in diabetes range - discuss treatment with your doctor"])
      else if x ≥ 5.7 then
        (some ⟨.ELEVATED, sl "yellow", sl "PREDIABETES",
          sl "HbA1c " ++ s ++ sl " indicates prediabetes"⟩, [])
      else
        (some ⟨.NORMAL, sl "green", sl "NORMAL",
          sl "HbA1c " ++ s ++ sl " is in normal range"⟩, [])

/-- The glucose block of `assess_metric_severity`. -/
def glucoseSeverity (v : Option Str) : Option SeverityRecord × List Str :=
  match truthy v with
  | none => (none, [])
  | some s =>
    match parse_int_tok s with
    | none => (none, [])
    | some x =>
      if x ≥ 200 then
        (some ⟨.CRITICAL, sl "red", sl "DANGEROUSLY HIGH",
          sl "Glucose " ++ s ++ sl " is dangerously high"⟩,
         [sl "⚠️ URGENT: Fasting glucose " ++ s ++
          sl " is dangerously high - seek medical attention today"])
      else if x ≥ 126 then
        (some ⟨.WARNING, sl "red", sl "DIABETES RANGE",
          sl "Glucose " ++ s ++ sl " is in diabetes range"⟩,
         [sl "⚠️ WARNING: Fasting glucose " ++ s ++ sl " indicates diabetes"])
      else if x ≥ 100 then
        (some ⟨.ELEVATED, sl "yellow", sl "ELEVATED",
          sl "Glucose " ++ s ++ sl " is elevated"⟩, [])
      else
        (some ⟨.NORMAL, sl "green", sl "NORMAL",
          sl "Glucose " ++ s ++ sl " is in normal range"⟩, [])

/-- The blood-pressure block of `assess_metric_severity`. -/
def bpSeverity (v : Option Str) : Option SeverityRecord × List Str :=
  match truthy v with
  | none => (none, [])
  | some s =>
    match parse_bp s with
    | none => (none, [])
    | some (sy, di) =>
      if sy ≥ 180 ∨ di ≥ 120 then
        (some ⟨.CRITICAL, sl "red", sl "HYPERTENSIVE CRISIS",
          sl "BP " ++ s ++ sl " is critically high"⟩,
         [sl "⚠️ URGENT: Blood pressure " ++ s ++
          sl " requires immediate medical attention"])
      else if sy ≥ 140 ∨ di ≥ 90 then
        (some ⟨.WARNING, sl "red", sl "HYPERTENSION",
          sl "BP " ++ s ++ sl " indicates hypertension"⟩,
         [sl "⚠️ WARNING: Blood pressure " ++ s ++
          sl " indicates Stage 2 hypertension"])
      else if sy ≥ 130 ∨ di ≥ 80 then
        (some ⟨.ELEVATED, sl "yellow", sl "ELEVATED",
          sl "BP " ++ s ++ sl " is elevated"⟩, [])
      else
        (some ⟨.NORMAL, sl "green", sl "NORMAL",
          sl "BP " ++ s ++ sl " is normal"⟩, [])

/-- The cholesterol block of `assess_metric_severity` (its ladder has no
CRITICAL band). -/
def cholesterolSeverity (v : Option Str) : Option SeverityRecord × List Str :=
  match truthy v with
  | none => (none, [])
  | some s =>
    match parse_int_tok s with
    | none => (none, [])
    | some x =>
      if x ≥ 240 then
        (some ⟨.WARNING, sl "red", sl "HIGH",
          sl "Cholesterol " ++ s ++ sl " is high"⟩,
         [sl "⚠️ WARNING: Total cholesterol " ++ s ++
          sl " is high - increases heart disease risk"])
      else if x ≥ 200 then
        (some ⟨.ELEVATED, sl "yellow", sl "BORDERLINE HIGH",
          sl "Cholesterol " ++ s ++ sl " is borderline high"⟩, [])
      else
        (some ⟨.NORMAL, sl "green", sl "DESIRABLE",
          sl "Cholesterol " ++ s ++ sl " is desirable"⟩, [])

/-- `assess_metric_severity`: evaluate the four blocks in order, collect the
alert strings they append, and aggregate the flags over the present
records. -/
def assess_metric_severity (m : MetricSet) : Assessment :=
  let h := hba1cSeverity m.hba1c
  let g := glucoseSeverity m.glucose
  let b := bpSeverity m.blood_pressure
  let c := cholesterolSeverity m.cholesterol
  let alerts := h.2 ++ g.2 ++ b.2 ++ c.2
  let recs := h.1.toList ++ g.1.toList ++ b.1.toList ++ c.1.toList
  { severity := ⟨h.1, g.1, b.1, c.1⟩,
    criticalAlerts := if alerts = [] then none else some alerts,
    hasCritical := recs.any fun r => r.level = .CRITICAL,
    hasWarning := recs.any fun r => r.level = .CRITICAL ∨ r.level = .WARNING }

/-! ## Trend comparison (`calculate_trends`) -/

/-- A stored document as seen by the trend comparator: its id, upload
timestamp and extracted metrics (`metrics` may be missing). -/
structure Doc where
  id : Str
  uploadDate : ℤ
  metrics : Option MetricSet
  deriving DecidableEq

/-- One per-metric change record of the trend comparison.  `change` holds
what the source stores (rounded for HbA1c, truncated for glucose);
`changePercent` is present only for HbA1c and glucose. -/
structure ChangeRec where
  current : Str
  previous : Str
  change : ℚ
  changePercent : Option ℚ
  direction : Str
  arrow : Str
  isImproving : Bool
  deriving DecidableEq

/-- The `changes` mapping of the trend result. -/
structure Changes where
  hba1c : Option ChangeRec := none
  glucose : Option ChangeRec := none
  blood_pressure : Option ChangeRec := none
  cholesterol : Option ChangeRec := none
  deriving DecidableEq

/-- The empty changes mapping. -/
def emptyChanges : Changes := {}

/-- The trend-comparison result. -/
structure Trends where
  hasPreviousReport : Bool
  previousDate : Option ℤ
  changes : Changes
  deriving DecidableEq

/-- The initial/empty trend result. -/
def emptyTrends : Trends :=
  { hasPreviousReport := false, previousDate := none, changes := emptyChanges }

/-- Round half-to-even to an integer (Python `round` on an exact value). -/
def roundHalfEven (x : ℚ) : ℤ :=
  let f := ⌊x⌋
  let r := x - f
  if r < 1 / 2 then f
  else if r > 1 / 2 then f + 1
  else if 2 ∣ f then f else f + 1

/-- Python `round(x, 1)` idealised over exact rationals (round half-to-even
at one decimal). -/
def pyRound1 (x : ℚ) : ℚ := (roundHalfEven (x * 10) : ℚ) / 10

/-- Python `int(x)` on a float: truncation toward zero. -/
def pyTrunc (x : ℚ) : ℤ := if 0 ≤ x then ⌊x⌋ else ⌈x⌉

/-- The HbA1c comparison step of `calculate_trends`.  A parse failure raises
out of the surrounding `try`, abandoning the remaining comparisons with the
changes accumulated so far (`Except.error`). -/
def trendStepHba1c (cm pm : MetricSet) (ch : Changes) : Except Changes Changes :=
  match truthy cm.hba1c, truthy pm.hba1c with
  | some cs, some ps =>
    match parse_hba1c cs with
    | none => .error ch
    | some cv =>
      match parse_hba1c ps with
      | none => .error ch
      | some pv =>
        let change := cv - pv
        .ok { ch with hba1c := some ({
            current := cs, previous := ps,
            change := pyRound1 change,
            changePercent := some (if pv > 0 then pyRound1 (change / pv * 100) else 0),
            direction := if change > 0.1 then sl "up"
              else if change < -0.1 then sl "down" else sl "stable",
            arrow := if change > 0.1 then sl "↑"
              else if change < -0.1 then sl "↓" else sl "→",
            isImproving := change < -0.1 }) }
  | _, _ => .ok ch

/-- The glucose comparison step of `calculate_trends` (parses with
`float(s.split()[0])`, stores `int(change)`). -/
def trendStepGlucose (cm pm : MetricSet) (ch : Changes) : Except Changes Changes :=
  match truthy cm.glucose, truthy pm.glucose with
  | some cs, some ps =>
    match parse_float_tok cs with
    | none => .error ch
    | some cv =>
      match parse_float_tok ps with
      | none => .error ch
      | some pv =>
        let change := cv - pv
        .ok { ch with glucose := some ({
            current := cs, previous := ps,
            change := (pyTrunc change : ℚ),
            changePercent := some (if pv > 0 then pyRound1 (change / pv * 100) else 0),
            direction := if change > 5 then sl "up"
              else if change < -5 then sl "down" else sl "stable",
            arrow := if change > 5 then sl "↑"
              else if change < -5 then sl "↓" else sl "→",
            isImproving := change < -5 }) }
  | _, _ => .ok ch

/-- The blood-pressure comparison step of `calculate_trends` (systolic
only, no `changePercent`). -/
def trendStepBp (cm pm : MetricSet) (ch : Changes) : Except Changes Changes :=
  match truthy cm.blood_pressure, truthy pm.blood_pressure with
  | some cs, some ps =>
    match parse_bp_sys cs with
    | none => .error ch
    | some cv =>
      match parse_bp_sys ps with
      | none => .error ch
      | some pv =>
        let change := cv - pv
        .ok { ch with blood_pressure := some ({
            current := cs, previous := ps,
            change := (change : ℚ),
            changePercent := none,
            direction := if change > 5 then sl "up"
              else if change < -5 then sl "down" else sl "stable",
            arrow := if change > 5 then sl "↑"
              else if change < -5 then sl "↓" else sl "→",
            isImproving := change < -5 }) }
  | _, _ => .ok ch

/-- The cholesterol comparison step of `calculate_trends` (no
`changePercent`, threshold 10). -/
def trendStepChol (cm pm : MetricSet) (ch : Changes) : Except Changes Changes :=
  match truthy cm.cholesterol, truthy pm.cholesterol with
  | some cs, some ps =>
    match parse_int_tok cs with
    | none => .error ch
    | some cv =>
      match parse_int_tok ps with
      | none => .error ch
      | some pv =>
        let change := cv - pv
        .ok { ch with cholesterol := some ({
            current := cs, previous := ps,
            change := (change : ℚ),
            changePercent := none,
            direction := if change > 10 then sl "up"
              else if change < -10 then sl "down" else sl "stable",
            arrow := if change > 10 then sl "↑"
              else if change < -10 then sl "↓" else sl "→",
            isImproving := change < -10 }) }
  | _, _ => .ok ch

/-- The changes a `try` block ends with: the normal result, or the state at
the escape. -/
def exVal : Except Changes Changes → Changes
  | .ok c => c
  | .error c => c

/-- The four comparison blocks run in order inside the one big `try` of
`calculate_trends`: the first parse failure escapes with the changes made so
far. -/
def trendChanges (cm pm : MetricSet) : Changes :=
  exVal ((trendStepHba1c cm pm emptyChanges).bind
    (fun ch => (trendStepGlucose cm pm ch).bind
      (fun ch2 => (trendStepBp cm pm ch2).bind
        (trendStepChol cm pm))))

/-- `calculate_trends`: `docs` stands for the stored history as returned by
the `order_by("uploadDate", DESCENDING).limit(10)` query.  Locate the target
id (first hit), require a successor element with a non-empty metrics
mapping, then compare metric by metric. -/
def calculate_trends (current_doc_id : Str) (docs : List Doc)
    (current_metrics : MetricSet) : Trends :=
  match docs.findIdx? (fun d => d.id = current_doc_id) with
  | none => emptyTrends
  | some i =>
    if i + 1 ≥ docs.length then emptyTrends
    else
      match docs.get? (i + 1) with
      | none => emptyTrends
      | some prev =>
        let pm := prev.metrics.getD emptyMetrics
        if pm = emptyMetrics then emptyTrends
        else
          { hasPreviousReport := true,
            previousDate := some prev.uploadDate,
            changes := trendChanges current_metrics pm }

/-! ## Fallback narrative (`generate_fallback_analysis`) -/

/-- The deterministic fallback analysis record. -/
structure Analysis where
  summary : Str
  keyFindings : List Str
  doctorQuestions : List Str
  recommendations : List Str
  criticalAlerts : Option (List Str)
  deriving DecidableEq

/-- The fixed generic-question pool of `generate_fallback_analysis`. -/
def genericQuestions : List Str :=
  [sl "How soon should I have a follow-up test to monitor my progress?",
   sl "What lifestyle modifications would you recommend based on these results?",
   sl "Are there any medications I should consider given these values?",
   sl "Should I be tracking any other health metrics at home?",
   sl "What are realistic targets for me to aim for in the next 3-6 months?"]

/-- One pass of the generic-question `for` loop: append each pool question
not already present while the list is shorter than 5. -/
def questionPass (acc : List Str) : List Str :=
  genericQuestions.foldl
    (fun a q => if q ∉ a ∧ a.length < 5 then a ++ [q] else a) acc

/-- The `while len < 5` loop around `questionPass`.  The source loop is
unbounded; one pass always fills the list to five entries (the pool is
disjoint from every value-specific question, see `questionPass_length`), so
fuel 6 is more than enough. -/
def padQuestions : ℕ → List Str → List Str
  | 0, acc => acc
  | fuel + 1, acc => if acc.length < 5 then padQuestions fuel (questionPass acc) else acc

/-- The `findings` accumulation of `generate_fallback_analysis`, hba1c
part (the `float(...)` parse runs outside any `try`, so a failure raises
out of the whole function: `Except.error`). -/
def findingsHba1c (m : MetricSet) (acc : List Str) : Except Unit (List Str) :=
  match truthy m.hba1c with
  | none => .ok acc
  | some s =>
    match pyFloat? (dropPct s) with
    | none => .error ()
    | some v =>
      if v ≥ 6.5 then .ok (acc ++ [sl "HbA1c of " ++ s ++ sl " indicates diabetes"])
      else if v ≥ 5.7 then
        .ok (acc ++ [sl "HbA1c of " ++ s ++ sl " indicates prediabetes"])
      else .ok (acc ++ [sl "HbA1c of " ++ s ++ sl " is in normal range"])

/-- The `findings` accumulation, glucose part (`int(...split()[0])` outside
any `try`). -/
def findingsGlucose (m : MetricSet) (acc : List Str) : Except Unit (List Str) :=
  match truthy m.glucose with
  | none => .ok acc
  | some s =>
    match parse_int_tok s with
    | none => .error ()
    | some v =>
      if v ≥ 126 then
        .ok (acc ++ [sl "fasting glucose of " ++ s ++ sl " is elevated (diabetes range)"])
      else if v ≥ 100 then
        .ok (acc ++ [sl "fasting glucose of " ++ s ++ sl " is elevated (prediabetes range)"])
      else .ok acc

/-- The complete `findings` list driving the summary. -/
def findingsOf (m : MetricSet) : Except Unit (List Str) :=
  (findingsHba1c m []).bind (findingsGlucose m)

/-- The summary sentence synthesised from the findings. -/
def summaryOf (findings : List Str) : Str :=
  sl "Your lab results show " ++
    (if findings ≠ [] then joinComma findings else sl "multiple health markers") ++
    sl ". " ++
    (if findings.length > 1 then
      sl "Several values are outside normal ranges and need attention."
    else sl "Review the key findings below with your doctor.")

/-- `keyFindings` accumulation, hba1c part. -/
def keyFindingsHba1c (m : MetricSet) (acc : List Str) : Except Unit (List Str) :=
  match truthy m.hba1c with
  | none => .ok acc
  | some s =>
    match pyFloat? (dropPct s) with
    | none => .error ()
    | some v =>
      .ok (acc ++ [sl "HbA1c is " ++ s ++ sl " - " ++
        (if v ≥ 5.7 then sl "elevated" else sl "normal") ++ sl " (normal range: 4.0-5.6%)"])

/-- `keyFindings` accumulation, glucose part. -/
def keyFindingsGlucose (m : MetricSet) (acc : List Str) : Except Unit (List Str) :=
  match truthy m.glucose with
  | none => .ok acc
  | some s =>
    match parse_int_tok s with
    | none => .error ()
    | some v =>
      .ok (acc ++ [sl "Fasting glucose is " ++ s ++ sl " - " ++
        (if v ≥ 100 then sl "elevated" else sl "normal") ++ sl " (normal range: 70-100 mg/dL)"])

/-- `keyFindings` accumulation, blood-pressure part (no numeric parse). -/
def keyFindingsBp (m : MetricSet) (acc : List Str) : List Str :=
  match truthy m.blood_pressure with
  | none => acc
  | some s => acc ++ [sl "Blood pressure is " ++ s ++ sl " (target: 120/80 mmHg or below)"]

/-- `keyFindings` accumulation, cholesterol part (no numeric parse). -/
def keyFindingsChol (m : MetricSet) (acc : List Str) : List Str :=
  match truthy m.cholesterol with
  | none => acc
  | some s => acc ++ [sl "Total cholesterol is " ++ s ++ sl " (recommended: below 200 mg/dL)"]

/-- The complete `keyFindings` list. -/
def keyFindingsOf (m : MetricSet) : Except Unit (List Str) :=
  ((keyFindingsHba1c m []).bind (keyFindingsGlucose m)).map
    (fun acc => keyFindingsChol m (keyFindingsBp m acc))

/-- Value-specific doctor questions, hba1c part. -/
def questionsHba1c (m : MetricSet) (acc : List Str) : Except Unit (List Str) :=
  match truthy m.hba1c with
  | none => .ok acc
  | some s =>
    match pyFloat? (dropPct s) with
    | none => .error ()
    | some v =>
      if v ≥ 5.7 then
        .ok (acc ++
          [sl "My HbA1c is " ++ s ++ sl " which indicates " ++
            (if v ≥ 6.5 then sl "diabetes" else sl "prediabetes") ++
            sl " - should I start medication or can lifestyle changes help?",
           sl "What specific dietary changes would be most effective to lower my HbA1c from "
             ++ s ++ sl "?"])
      else .ok acc

/-- Value-specific doctor questions, glucose part. -/
def questionsGlucose (m : MetricSet) (acc : List Str) : Except Unit (List Str) :=
  match truthy m.glucose with
  | none => .ok acc
  | some s =>
    match parse_int_tok s with
    | none => .error ()
    | some v =>
      if v ≥ 100 then
        .ok (acc ++
          [sl "My fasting glucose is " ++ s ++
            sl " - how often should I monitor my blood sugar at home?",
           sl "Should I be concerned about my glucose level of " ++ s ++
            sl "? What are my next steps?"])
      else .ok acc

/-- Value-specific doctor questions, blood-pressure part. -/
def questionsBp (m : MetricSet) (acc : List Str) : List Str :=
  match truthy m.blood_pressure with
  | none => acc
  | some s =>
    acc ++ [sl "My blood pressure is " ++ s ++ sl " - is this related to my blood sugar levels?"]

/-- The value-specific doctor questions, before generic padding. -/
def questionsOf (m : MetricSet) : Except Unit (List Str) :=
  ((questionsHba1c m []).bind (questionsGlucose m)).map (questionsBp m)

/-- The recommendations list: three diabetes-focused entries when hba1c or
glucose is present (truthily), then two fixed entries. -/
def recommendationsOf (m : MetricSet) : List Str :=
  (if (truthy m.hba1c).isSome ∨ (truthy m.glucose).isSome then
    [sl "Follow a balanced diet low in refined carbohydrates and added sugars",
     sl "Engage in at least 150 minutes of moderate exercise per week",
     sl "Monitor blood glucose levels as recommended by your doctor"]
  else []) ++
  [sl "Schedule a follow-up appointment to discuss these results in detail",
   sl "Keep a log of your diet, exercise, and any symptoms to share with your doctor"]

/-- Critical alerts, hba1c part. -/
def criticalHba1c (m : MetricSet) (acc : List Str) : Except Unit (List Str) :=
  match truthy m.hba1c with
  | none => .ok acc
  | some s =>
    match pyFloat? (dropPct s) with
    | none => .error ()
    | some v =>
      if v ≥ 9.0 then
        .ok (acc ++ [sl "HbA1c is critically high - contact your doctor immediately"])
      else .ok acc

/-- Critical alerts, glucose part. -/
def criticalGlucose (m : MetricSet) (acc : List Str) : Except Unit (List Str) :=
  match truthy m.glucose with
  | none => .ok acc
  | some s =>
    match parse_int_tok s with
    | none => .error ()
    | some v =>
      if v ≥ 200 then
        .ok (acc ++ [sl "Fasting glucose is dangerously high - seek medical attention today"])
      else .ok acc

/-- The complete critical-alert list. -/
def criticalOf (m : MetricSet) : Except Unit (List Str) :=
  (criticalHba1c m []).bind (criticalGlucose m)

/-- `generate_fallback_analysis`: deterministic narrative synthesis from the
metrics alone, assembled section by section in source order.  The
`text_preview` argument is accepted and unused, as in the source.  The
numeric parses run outside any `try`, so an unparseable hba1c/glucose value
raises out of the whole function (`Except.error`). -/
def generate_fallback_analysis (m : MetricSet) (text_preview : Str) :
    Except Unit Analysis :=
  (findingsOf m).bind fun findings =>
    (keyFindingsOf m).bind fun keyFindings =>
      (questionsOf m).bind fun questions =>
        (criticalOf m).map fun critical =>
          { summary := summaryOf findings,
            keyFindings := keyFindings,
            doctorQuestions := padQuestions 6 questions,
            recommendations := recommendationsOf m,
            criticalAlerts := if critical ≠ [] then some critical else none }

/-- Whether an optional severity record is banded CRITICAL or WARNING
(the condition under which the source appends an alert). -/
def isCW (o : Option SeverityRecord) : Bool :=
  match o with
  | some r => r.level = .CRITICAL ∨ r.level = .WARNING
  | none => false

/-! ## Lemmas about digit strings and the Python-style parsers -/

/-- `dropWhile` is the identity when every element fails the predicate. -/
lemma dropWhile_eq_self_of (p : Char → Bool) (l : Str)
    (h : ∀ c ∈ l, p c = false) : l.dropWhile p = l := by
  cases l with
  | nil => rfl
  | cons c t => simp [List.dropWhile, h c (by simp)]

/-- A digit differs from any concrete non-digit character. -/
lemma isDig_ne {c x : Char} (hd : isDig c = true) (hx : isDig x = false) : c ≠ x := by
  intro he
  rw [he, hx] at hd
  exact Bool.noConfusion hd

/-- One digit is never whitespace. -/
lemma isWs_of_isDig {c : Char} (h : isDig c = true) : isWs c = false := by
  have h1 := isDig_ne h (x := ' ') (by decide)
  have h2 := isDig_ne h (x := '\t') (by decide)
  have h3 := isDig_ne h (x := '\n') (by decide)
  have h4 := isDig_ne h (x := '\x0b') (by decide)
  have h5 := isDig_ne h (x := '\x0c') (by decide)
  have h6 := isDig_ne h (x := '\r') (by decide)
  simp [isWs, h1, h2, h3, h4, h5, h6]

/-- `stripWs` is the identity on strings without whitespace. -/
lemma stripWs_eq_self (l : Str) (h : ∀ c ∈ l, isWs c = false) :
    stripWs l = l := by
  unfold stripWs
  rw [dropWhile_eq_self_of _ _ h,
    dropWhile_eq_self_of _ _ (by intro c hc; exact h c (by simpa using hc)),
    List.reverse_reverse]

/-- A digit character is neither `+` nor `-` nor `.` nor `e` nor `E`. -/
lemma isDig_char_facts {c : Char} (h : isDig c = true) :
    c ≠ '+' ∧ c ≠ '-' ∧ c ≠ '.' ∧ c ≠ 'e' ∧ c ≠ 'E' :=
  ⟨isDig_ne h (by decide), isDig_ne h (by decide), isDig_ne h (by decide),
   isDig_ne h (by decide), isDig_ne h (by decide)⟩

/-- `takeSign` passes a digit-headed (or empty) string through. -/
lemma takeSign_of_dig (a : Str) (h : ∀ c ∈ a, isDig c = true) :
    takeSign a = (1, a) := by
  cases a with
  | nil => rfl
  | cons c t =>
    have hc := isDig_char_facts (h c (by simp))
    simp [takeSign, hc.1, hc.2.1]

/-- `takeDigits` consumes exactly a leading digit block that is followed by
nothing or a non-digit. -/
lemma takeDigits_exact (a r : Str) (ha : ∀ c ∈ a, isDig c = true)
    (hr : ∀ c, r.head? = some c → isDig c = false) :
    takeDigits (a ++ r) = (a, r) := by
  induction a with
  | nil =>
    cases r with
    | nil => rfl
    | cons c t => simp [takeDigits, hr c rfl]
  | cons c t ih =>
    have hc := ha c (by simp)
    have h2 := ih (fun x hx => ha x (by simp [hx]))
    simp [takeDigits, hc, h2]

/-- `takeDigits` consumes a whole digit string. -/
lemma takeDigits_all (a : Str) (ha : ∀ c ∈ a, isDig c = true) :
    takeDigits a = (a, []) := by
  have := takeDigits_exact a [] (by simpa using ha) (by simp)
  simpa using this

/-- `foldl` form of `natOfDigits` with an arbitrary initial accumulator. -/
lemma natOfDigits_foldl (n : ℕ) (l : Str) :
    l.foldl (fun a c => a * 10 + digVal c) n = n * 10 ^ l.length + natOfDigits l := by
  induction l generalizing n with
  | nil => simp [natOfDigits]
  | cons c t ih =>
    simp only [List.foldl_cons, List.length_cons, natOfDigits]
    rw [ih (n * 10 + digVal c), ih (0 * 10 + digVal c)]
    ring

/-- `natOfDigits` over an append. -/
lemma natOfDigits_append (a b : Str) :
    natOfDigits (a ++ b) = natOfDigits a * 10 ^ b.length + natOfDigits b := by
  unfold natOfDigits
  rw [List.foldl_append]
  exact natOfDigits_foldl _ b

/-- Leading zeros do not change the value of a digit string. -/
lemma natOfDigits_dropZeros (a : Str) :
    natOfDigits (a.dropWhile (fun c => c = '0')) = natOfDigits a := by
  induction a with
  | nil => rfl
  | cons c t ih =>
    by_cases h : c = '0'
    · subst h
      simpa [List.dropWhile, natOfDigits, digVal] using ih
    · simp [List.dropWhile, h]

/-- A string of zeros has value zero. -/
lemma natOfDigits_zeros (a : Str) (h : ∀ c ∈ a, c = '0') : natOfDigits a = 0 := by
  induction a with
  | nil => rfl
  | cons c t ih =>
    have := h c (by simp)
    subst this
    simpa [natOfDigits, digVal] using ih fun x hx => h x (by simp [hx])

/-- Dropping trailing zeros of a fraction preserves `value / 10 ^ length`. -/
lemma frac_dropTrailZeros (b : Str) :
    ((natOfDigits ((b.reverse.dropWhile (fun c => c = '0')).reverse) : ℚ) /
      10 ^ ((b.reverse.dropWhile (fun c => c = '0')).reverse).length) =
    (natOfDigits b : ℚ) / 10 ^ b.length := by
  induction b using List.reverseRecOn with
  | nil => rfl
  | append_singleton t c ih =>
    by_cases h : c = '0'
    · subst h
      rw [List.reverse_append]
      simp only [List.reverse_cons, List.reverse_nil, List.nil_append,
        List.singleton_append, List.dropWhile_cons]
      simp only [decide_True, if_true]
      rw [ih]
      rw [natOfDigits_append]
      simp [natOfDigits, digVal]
      rw [pow_succ]
      rw [mul_comm ((10 : ℚ) ^ t.length) 10, ← div_div]
      simp
    · rw [List.reverse_append]
      simp only [List.reverse_cons, List.reverse_nil, List.nil_append,
        List.singleton_append, List.dropWhile_cons]
      simp [h]

/-- A `digitChar` of a residue is a digit character. -/
lemma isDig_digitChar (d : ℕ) (h : d < 10) : isDig (digitChar d) = true := by
  interval_cases d <;> decide

/-- Unfolding `natReprAux` below ten, at any fuel. -/
lemma natReprAux_lt (fuel : ℕ) {n : ℕ} (acc : Str) (h : n < 10) :
    natReprAux fuel n acc = digitChar (n % 10) :: acc := by
  cases fuel with
  | zero => rfl
  | succ f => simp [natReprAux, h]

/-- Unfolding `natReprAux` at ten or above. -/
lemma natReprAux_ge {fuel n : ℕ} (acc : Str) (h : ¬n < 10) :
    natReprAux (fuel + 1) n acc =
      natReprAux fuel (n / 10) (digitChar (n % 10) :: acc) := by
  simp [natReprAux, h]

/-- `natReprAux` ignores the fuel once it covers the value. -/
lemma natReprAux_fuel {f1 f2 n : ℕ} (acc : Str) (h1 : n ≤ f1) (h2 : n ≤ f2) :
    natReprAux f1 n acc = natReprAux f2 n acc := by
  induction f1 generalizing f2 n acc with
  | zero =>
    have hn : n = 0 := Nat.le_zero.mp h1
    subst hn
    rw [natReprAux_lt f2 acc (by omega)]
    rfl
  | succ f ih =>
    by_cases h : n < 10
    · rw [natReprAux_lt _ acc h, natReprAux_lt _ acc h]
    · rcases f2 with _ | f2
      · omega
      · rw [natReprAux_ge acc h, natReprAux_ge acc h]
        have hd : n / 10 < n := Nat.div_lt_self (by omega) (by omega)
        exact ih _ (by omega) (by omega)

/-- The accumulator of `natReprAux` is a passive suffix. -/
lemma natReprAux_acc (fuel : ℕ) : ∀ (n : ℕ) (acc : Str),
    natReprAux fuel n acc = natReprAux fuel n [] ++ acc := by
  induction fuel with
  | zero => intro n acc; rfl
  | succ f ih =>
    intro n acc
    by_cases h : n < 10
    · rw [natReprAux_lt _ _ h, natReprAux_lt _ _ h]
      rfl
    · rw [natReprAux_ge _ h, natReprAux_ge _ h, ih _ (digitChar (n % 10) :: acc),
        ih _ [digitChar (n % 10)]]
      simp

/-- Peeling the least significant digit off `natRepr`. -/
lemma natRepr_step (n : ℕ) (h : ¬n < 10) :
    natRepr n = natRepr (n / 10) ++ [digitChar (n % 10)] := by
  rcases n with _ | m
  · omega
  · have hd : (m + 1) / 10 < m + 1 := Nat.div_lt_self (by omega) (by omega)
    rw [natRepr, natReprAux_ge [] h, natReprAux_acc,
      natReprAux_fuel [] (by omega) (le_refl ((m + 1) / 10)), natRepr]

/-- All characters of `natReprAux` are digits. -/
lemma natReprAux_digits (fuel : ℕ) : ∀ (n : ℕ) (acc : Str),
    (∀ c ∈ acc, isDig c = true) → ∀ c ∈ natReprAux fuel n acc, isDig c = true := by
  induction fuel with
  | zero =>
    intro n acc hacc c hc
    rcases List.mem_cons.mp hc with hc | hc
    · simpa [hc] using isDig_digitChar (n % 10) (Nat.mod_lt _ (by omega))
    · exact hacc c hc
  | succ f ih =>
    intro n acc hacc
    by_cases h : n < 10
    · rw [natReprAux_lt _ acc h]
      intro c hc
      rcases List.mem_cons.mp hc with hc | hc
      · simpa [hc] using isDig_digitChar (n % 10) (Nat.mod_lt _ (by omega))
      · exact hacc c hc
    · rw [natReprAux_ge acc h]
      refine ih _ _ ?_
      intro c hc
      rcases List.mem_cons.mp hc with hc | hc
      · simpa [hc] using isDig_digitChar (n % 10) (Nat.mod_lt _ (by omega))
      · exact hacc c hc

/-- `natRepr` produces only digits. -/
lemma natRepr_digits (n : ℕ) : ∀ c ∈ natRepr n, isDig c = true :=
  natReprAux_digits n n [] (by simp)

/-- `natReprAux` with an accumulator is `natRepr` followed by the
accumulator. -/
lemma natReprAux_append {fuel n : ℕ} (acc : Str) (hf : n ≤ fuel) :
    natReprAux fuel n acc = natRepr n ++ acc := by
  rw [natReprAux_acc, natRepr, natReprAux_fuel [] hf (le_refl n)]

/-- `natRepr` is never empty. -/
lemma natRepr_ne_nil (n : ℕ) : natRepr n ≠ [] := by
  by_cases h : n < 10
  · rw [natRepr, natReprAux_lt _ [] h]
    simp
  · rw [natRepr_step n h]
    simp

/-- The value of a `digitChar`. -/
lemma digVal_digitChar (d : ℕ) (h : d < 10) : digVal (digitChar d) = d := by
  interval_cases d <;> decide

/-- `natRepr` round-trips through `natOfDigits`. -/
lemma natOfDigits_natRepr (n : ℕ) : natOfDigits (natRepr n) = n := by
  induction n using Nat.strong_induction_on with
  | _ n ih =>
    by_cases h : n < 10
    · rw [natRepr, natReprAux_lt _ [] h]
      have := digVal_digitChar (n % 10) (by omega)
      simp [natOfDigits, this]
      omega
    · rw [natRepr_step n h, natOfDigits_append,
        ih (n / 10) (Nat.div_lt_self (by omega) (by omega))]
      have hdc : natOfDigits [digitChar (n % 10)] = n % 10 := by
        simpa [natOfDigits] using digVal_digitChar (n % 10) (by omega)
      rw [hdc]
      simp only [List.length_singleton, pow_one]
      omega

/-- `pyInt?` on a pure digit string returns its value. -/
lemma pyInt?_digits (a : Str) (ha : ∀ c ∈ a, isDig c = true) (hne : a ≠ []) :
    pyInt? a = some (natOfDigits a : ℤ) := by
  simp only [pyInt?, stripWs_eq_self a (fun c hc => isWs_of_isDig (ha c hc)),
    takeSign_of_dig a ha, takeDigits_all a ha]
  simp [hne]

/-- `pyFloat?` on a pure digit string returns its value. -/
lemma pyFloat?_digits (a : Str) (ha : ∀ c ∈ a, isDig c = true) (hne : a ≠ []) :
    pyFloat? a = some (natOfDigits a : ℚ) := by
  simp only [pyFloat?, stripWs_eq_self a (fun c hc => isWs_of_isDig (ha c hc)),
    takeSign_of_dig a ha, takeDigits_all a ha]
  simp [hne, takeExpTail, pow10]

/-- `pyFloat?` on `digits.digits` (integer part nonempty) returns the
denoted rational. -/
lemma pyFloat?_point (a b : Str) (ha : ∀ c ∈ a, isDig c = true) (hne : a ≠ [])
    (hb : ∀ c ∈ b, isDig c = true) :
    pyFloat? (a ++ '.' :: b) = some ((natOfDigits a : ℚ) +
      (natOfDigits b : ℚ) / 10 ^ b.length) := by
  have hnows : ∀ c ∈ a ++ '.' :: b, isWs c = false := by
    intro c hc
    rcases List.mem_append.mp hc with hc | hc
    · exact isWs_of_isDig (ha c hc)
    · simp only [List.mem_cons] at hc
      rcases hc with hc | hc
      · subst hc; rfl
      · exact isWs_of_isDig (hb c hc)
  have hsign : takeSign (a ++ '.' :: b) = (1, a ++ '.' :: b) := by
    cases a with
    | nil => rfl
    | cons c t =>
      have hc := isDig_char_facts (ha c (by simp))
      simp [takeSign, hc.1, hc.2.1]
  have htd : takeDigits (a ++ '.' :: b) = (a, '.' :: b) :=
    takeDigits_exact a ('.' :: b) ha
      (by intro c hc; rw [List.head?_cons, Option.some_inj] at hc; subst hc; rfl)
  simp only [pyFloat?, stripWs_eq_self _ hnows, hsign, htd, List.head?_cons,
    List.tail_cons, if_pos rfl, takeDigits_all b hb]
  simp [hne, takeExpTail, pow10]

/-- Splitting on whitespace: a nonempty whitespace-free token followed by a
space becomes the head token. -/
lemma splitWsAux_token (a r : Str) (cur : Str) (ha : ∀ c ∈ a, isWs c = false)
    (hne : cur ≠ [] ∨ a ≠ []) :
    splitWsAux (a ++ ' ' :: r) cur = (cur.reverse ++ a) :: splitWs r := by
  induction a generalizing cur with
  | nil =>
    rcases hne with hne | hne
    · simp [splitWsAux, isWs, hne, splitWs]
    · simp at hne
  | cons c t ih =>
    have hc := ha c (by simp)
    have h2 := ih (c :: cur) (fun x hx => ha x (by simp [hx])) (Or.inl (by simp))
    simp [splitWsAux, hc, h2]

/-- `s.split()[0]` of `token ++ " " ++ rest` is the token. -/
lemma splitWs_head (a r : Str) (ha : ∀ c ∈ a, isWs c = false) (hne : a ≠ []) :
    (splitWs (a ++ ' ' :: r)).head? = some a := by
  unfold splitWs
  rw [splitWsAux_token a r [] ha (Or.inr hne)]
  simp

/-- `parse_int_tok` on `digits ++ " " ++ rest` recovers the digits value. -/
lemma parse_int_tok_digits (a r : Str) (ha : ∀ c ∈ a, isDig c = true)
    (hne : a ≠ []) :
    parse_int_tok (a ++ ' ' :: r) = some (natOfDigits a : ℤ) := by
  unfold parse_int_tok
  rw [splitWs_head a r (fun c hc => isWs_of_isDig (ha c hc)) hne]
  simpa using pyInt?_digits a ha hne

/-- `parse_float_tok` on `digits ++ " " ++ rest` recovers the digits value. -/
lemma parse_float_tok_digits (a r : Str) (ha : ∀ c ∈ a, isDig c = true)
    (hne : a ≠ []) :
    parse_float_tok (a ++ ' ' :: r) = some (natOfDigits a : ℚ) := by
  unfold parse_float_tok
  rw [splitWs_head a r (fun c hc => isWs_of_isDig (ha c hc)) hne]
  simpa using pyFloat?_digits a ha hne

/-- `splitOnCh` of a separator-free string. -/
lemma splitOnCh_no_sep (sep : Char) (a : Str) (h : ∀ c ∈ a, c ≠ sep) :
    splitOnCh sep a = [a] := by
  induction a with
  | nil => rfl
  | cons c t ih =>
    simp only [splitOnCh, h c (by simp), if_false]
    rw [ih fun x hx => h x (by simp [hx])]

/-- `splitOnCh` around the first separator. -/
lemma splitOnCh_append (sep : Char) (a b : Str) (h : ∀ c ∈ a, c ≠ sep) :
    splitOnCh sep (a ++ sep :: b) = a :: splitOnCh sep b := by
  induction a with
  | nil => simp [splitOnCh]
  | cons c t ih =>
    have h2 := ih fun x hx => h x (by simp [hx])
    simp [splitOnCh, h c (by simp), h2]

/-! ## Theorems

### C1: severity bands of `assess_metric_severity` -/

/-- **C1.** For every metrics mapping, `assess_metric_severity` assigns each
present, numerically parseable metric exactly one severity band, with the
band boundaries of the threshold table and the highest band checked first:
hba1c CRITICAL iff `v ≥ 9.0`, WARNING iff `6.5 ≤ v < 9.0`, ELEVATED iff
`5.7 ≤ v < 6.5`, NORMAL iff `v < 5.7`; glucose CRITICAL iff `≥ 200`,
WARNING iff `126 ≤ v < 200`, ELEVATED iff `100 ≤ v < 126`, else NORMAL;
blood pressure CRITICAL iff `sys ≥ 180 ∨ dia ≥ 120`, WARNING iff not
critical and `sys ≥ 140 ∨ dia ≥ 90`, ELEVATED iff not higher and
`sys ≥ 130 ∨ dia ≥ 80`, else NORMAL; cholesterol WARNING iff `≥ 240`,
ELEVATED iff `200 ≤ v < 240`, NORMAL iff `< 200`, and never CRITICAL. -/
theorem C1_severity_bands (m : MetricSet) :
    (∀ s v, truthy m.hba1c = some s → parse_hba1c s = some v →
      ∃ r, (assess_metric_severity m).severity.hba1c = some r ∧
        (r.level = .CRITICAL ↔ (9 : ℚ) ≤ v) ∧
        (r.level = .WARNING ↔ (6.5 : ℚ) ≤ v ∧ v < 9) ∧
        (r.level = .ELEVATED ↔ (5.7 : ℚ) ≤ v ∧ v < 6.5) ∧
        (r.level = .NORMAL ↔ v < (5.7 : ℚ))) ∧
    (∀ s v, truthy m.glucose = some s → parse_int_tok s = some v →
      ∃ r, (assess_metric_severity m).severity.glucose = some r ∧
        (r.level = .CRITICAL ↔ 200 ≤ v) ∧
        (r.level = .WARNING ↔ 126 ≤ v ∧ v < 200) ∧
        (r.level = .ELEVATED ↔ 100 ≤ v ∧ v < 126) ∧
        (r.level = .NORMAL ↔ v < 100)) ∧
    (∀ s sy di, truthy m.blood_pressure = some s → parse_bp s = some (sy, di) →
      ∃ r, (assess_metric_severity m).severity.blood_pressure = some r ∧
        (r.level = .CRITICAL ↔ 180 ≤ sy ∨ 120 ≤ di) ∧
        (r.level = .WARNING ↔ ¬(180 ≤ sy ∨ 120 ≤ di) ∧ (140 ≤ sy ∨ 90 ≤ di)) ∧
        (r.level = .ELEVATED ↔
          ¬(180 ≤ sy ∨ 120 ≤ di) ∧ ¬(140 ≤ sy ∨ 90 ≤ di) ∧ (130 ≤ sy ∨ 80 ≤ di)) ∧
        (r.level = .NORMAL ↔ sy < 130 ∧ di < 80)) ∧
    (∀ s v, truthy m.cholesterol = some s → parse_int_tok s = some v →
      ∃ r, (assess_metric_severity m).severity.cholesterol = some r ∧
        r.level ≠ .CRITICAL ∧
        (r.level = .WARNING ↔ 240 ≤ v) ∧
        (r.level = .ELEVATED ↔ 200 ≤ v ∧ v < 240) ∧
        (r.level = .NORMAL ↔ v < 200)) := by
  refine ⟨?_, ?_, ?_, ?_⟩
  · intro s v h1 h2
    simp only [assess_metric_severity, hba1cSeverity, h1, h2]
    split_ifs with hc hw he
    · exact ⟨_, rfl, iff_of_true rfl (by linarith),
        iff_of_false (by simp) (by rintro ⟨_, h⟩; linarith),
        iff_of_false (by simp) (by rintro ⟨_, h⟩; linarith),
        iff_of_false (by simp) (by intro h; linarith)⟩
    · exact ⟨_, rfl, iff_of_false (by simp) (by intro h; linarith),
        iff_of_true rfl ⟨by linarith, by linarith⟩,
        iff_of_false (by simp) (by rintro ⟨_, h⟩; linarith),
        iff_of_false (by simp) (by intro h; linarith)⟩
    · exact ⟨_, rfl, iff_of_false (by simp) (by intro h; linarith),
        iff_of_false (by simp) (by rintro ⟨h, _⟩; linarith),
        iff_of_true rfl ⟨by linarith, by linarith⟩,
        iff_of_false (by simp) (by intro h; linarith)⟩
    · exact ⟨_, rfl, iff_of_false (by simp) (by intro h; linarith),
        iff_of_false (by simp) (by rintro ⟨h, _⟩; linarith),
        iff_of_false (by simp) (by rintro ⟨h, _⟩; linarith),
        iff_of_true rfl (by linarith)⟩
  · intro s v h1 h2
    simp only [assess_metric_severity, glucoseSeverity, h1, h2]
    split_ifs with hc hw he
    · exact ⟨_, rfl, iff_of_true rfl (by omega),
        iff_of_false (by simp) (by omega),
        iff_of_false (by simp) (by omega),
        iff_of_false (by simp) (by omega)⟩
    · exact ⟨_, rfl, iff_of_false (by simp) (by omega),
        iff_of_true rfl (by omega),
        iff_of_false (by simp) (by omega),
        iff_of_false (by simp) (by omega)⟩
    · exact ⟨_, rfl, iff_of_false (by simp) (by omega),
        iff_of_false (by simp) (by omega),
        iff_of_true rfl (by omega),
        iff_of_false (by simp) (by omega)⟩
    · exact ⟨_, rfl, iff_of_false (by simp) (by omega),
        iff_of_false (by simp) (by omega),
        iff_of_false (by simp) (by omega),
        iff_of_true rfl (by omega)⟩
  · intro s sy di h1 h2
    simp only [assess_metric_severity, bpSeverity, h1, h2]
    split_ifs with hc hw he
    · exact ⟨_, rfl, iff_of_true rfl (by omega),
        iff_of_false (by simp) (by omega),
        iff_of_false (by simp) (by omega),
        iff_of_false (by simp) (by omega)⟩
    · exact ⟨_, rfl, iff_of_false (by simp) (by omega),
        iff_of_true rfl (by omega),
        iff_of_false (by simp) (by omega),
        iff_of_false (by simp) (by omega)⟩
    · exact ⟨_, rfl, iff_of_false (by simp) (by omega),
        iff_of_false (by simp) (by omega),
        iff_of_true rfl (by omega),
        iff_of_false (by simp) (by omega)⟩
    · exact ⟨_, rfl, iff_of_false (by simp) (by omega),
        iff_of_false (by simp) (by omega),
        iff_of_false (by simp) (by omega),
        iff_of_true rfl (by omega)⟩
  · intro s v h1 h2
    simp only [assess_metric_severity, cholesterolSeverity, h1, h2]
    split_ifs with hw he
    · exact ⟨_, rfl, by simp, iff_of_true rfl (by omega),
        iff_of_false (by simp) (by omega),
        iff_of_false (by simp) (by omega)⟩
    · exact ⟨_, rfl, by simp, iff_of_false (by simp) (by omega),
        iff_of_true rfl (by omega),
        iff_of_false (by simp) (by omega)⟩
    · exact ⟨_, rfl, by simp, iff_of_false (by simp) (by omega),
        iff_of_false (by simp) (by omega),
        iff_of_true rfl (by omega)⟩

/-- Witness for C1 at the concrete mapping `hba1c = "6.8%"`. -/
theorem C1_severity_bands_witness :
    ∃ r, (assess_metric_severity
        { hba1c := some (sl "6.8%") }).severity.hba1c = some r ∧
      (r.level = .CRITICAL ↔ (9 : ℚ) ≤ 6.8) ∧
      (r.level = .WARNING ↔ (6.5 : ℚ) ≤ 6.8 ∧ (6.8 : ℚ) < 9) ∧
      (r.level = .ELEVATED ↔ (5.7 : ℚ) ≤ 6.8 ∧ (6.8 : ℚ) < 6.5) ∧
      (r.level = .NORMAL ↔ (6.8 : ℚ) < 5.7) :=
  (C1_severity_bands { hba1c := some (sl "6.8%") }).1 (sl "6.8%") 6.8
    (by decide)
    (by
      have h1 : dropPct (sl "6.8%") = ['6'] ++ '.' :: ['8'] := by decide
      have h2 := pyFloat?_point ['6'] ['8'] (by decide) (by decide) (by decide)
      have h3 : natOfDigits ['6'] = 6 := by decide
      have h4 : natOfDigits ['8'] = 8 := by decide
      rw [parse_hba1c, h1, h2, h3, h4]
      norm_num)

/-! ### C10: alert/flag agreement in `assess_metric_severity` -/

/-- The hba1c block appends exactly one alert iff its record is CRITICAL or
WARNING. -/
lemma hba1cSeverity_alerts (v : Option Str) :
    (hba1cSeverity v).2.length = if isCW (hba1cSeverity v).1 then 1 else 0 := by
  cases h : truthy v with
  | none => simp [hba1cSeverity, h, isCW]
  | some s =>
    cases hp : parse_hba1c s with
    | none => simp [hba1cSeverity, h, hp, isCW]
    | some x =>
      simp only [hba1cSeverity, h, hp]
      split_ifs <;> simp_all [isCW]

/-- The glucose block appends exactly one alert iff its record is CRITICAL
or WARNING. -/
lemma glucoseSeverity_alerts (v : Option Str) :
    (glucoseSeverity v).2.length = if isCW (glucoseSeverity v).1 then 1 else 0 := by
  cases h : truthy v with
  | none => simp [glucoseSeverity, h, isCW]
  | some s =>
    cases hp : parse_int_tok s with
    | none => simp [glucoseSeverity, h, hp, isCW]
    | some x =>
      simp only [glucoseSeverity, h, hp]
      split_ifs <;> simp_all [isCW]

/-- The blood-pressure block appends exactly one alert iff its record is
CRITICAL or WARNING. -/
lemma bpSeverity_alerts (v : Option Str) :
    (bpSeverity v).2.length = if isCW (bpSeverity v).1 then 1 else 0 := by
  cases h : truthy v with
  | none => simp [bpSeverity, h, isCW]
  | some s =>
    cases hp : parse_bp s with
    | none => simp [bpSeverity, h, hp, isCW]
    | some p =>
      obtain ⟨sy, di⟩ := p
      simp only [bpSeverity, h, hp]
      split_ifs <;> simp_all [isCW]

/-- The cholesterol block appends exactly one alert iff its record is
CRITICAL or WARNING. -/
lemma cholesterolSeverity_alerts (v : Option Str) :
    (cholesterolSeverity v).2.length =
      if isCW (cholesterolSeverity v).1 then 1 else 0 := by
  cases h : truthy v with
  | none => simp [cholesterolSeverity, h, isCW]
  | some s =>
    cases hp : parse_int_tok s with
    | none => simp [cholesterolSeverity, h, hp, isCW]
    | some x =>
      simp only [cholesterolSeverity, h, hp]
      split_ifs <;> simp_all [isCW]

/-- `Option.toList _ |>.any` of the CW test is `isCW`. -/
lemma any_toList_cw (o : Option SeverityRecord) :
    (o.toList.any fun r => decide (r.level = .CRITICAL ∨ r.level = .WARNING)) =
      isCW o := by
  cases o <;> simp [isCW]

/-- `Option.toList _ |>.any` of the CRITICAL test implies `isCW`. -/
lemma any_toList_crit (o : Option SeverityRecord)
    (h : o.toList.any (fun r => decide (r.level = .CRITICAL)) = true) :
    isCW o = true := by
  cases o with
  | none => simp at h
  | some r => simp at h; simp [isCW, h]

/-- **C10.** In every output of `assess_metric_severity`: `hasCritical`
implies `hasWarning` (the latter counts both CRITICAL and WARNING);
`criticalAlerts` is non-null exactly when `hasWarning` is true; and the
alert list holds exactly one entry per metric banded CRITICAL or WARNING
(and no entry in any other case), so the alert list, the `hasWarning` flag
and the presence of a CRITICAL/WARNING band always agree. -/
theorem C10_alert_flag_agreement (m : MetricSet) :
    ((assess_metric_severity m).hasCritical = true →
      (assess_metric_severity m).hasWarning = true) ∧
    ((assess_metric_severity m).criticalAlerts ≠ none ↔
      (assess_metric_severity m).hasWarning = true) ∧
    (((assess_metric_severity m).criticalAlerts.getD []).length =
      (if isCW (assess_metric_severity m).severity.hba1c then 1 else 0) +
      (if isCW (assess_metric_severity m).severity.glucose then 1 else 0) +
      (if isCW (assess_metric_severity m).severity.blood_pressure then 1 else 0) +
      (if isCW (assess_metric_severity m).severity.cholesterol then 1 else 0)) := by
  have lh := hba1cSeverity_alerts m.hba1c
  have lg := glucoseSeverity_alerts m.glucose
  have lb := bpSeverity_alerts m.blood_pressure
  have lc := cholesterolSeverity_alerts m.cholesterol
  simp only [assess_metric_severity]
  obtain ⟨H, hH⟩ : ∃ p, hba1cSeverity m.hba1c = p := ⟨_, rfl⟩
  obtain ⟨G, hG⟩ : ∃ p, glucoseSeverity m.glucose = p := ⟨_, rfl⟩
  obtain ⟨B, hB⟩ : ∃ p, bpSeverity m.blood_pressure = p := ⟨_, rfl⟩
  obtain ⟨C, hC⟩ : ∃ p, cholesterolSeverity m.cholesterol = p := ⟨_, rfl⟩
  simp only [hH] at lh ⊢
  simp only [hG] at lg ⊢
  simp only [hB] at lb ⊢
  simp only [hC] at lc ⊢
  have lenEq : (H.2 ++ G.2 ++ B.2 ++ C.2).length =
      (if isCW H.1 then 1 else 0) + (if isCW G.1 then 1 else 0) +
      (if isCW B.1 then 1 else 0) + (if isCW C.1 then 1 else 0) := by
    simp only [List.length_append, lh, lg, lb, lc]
  refine ⟨?_, ?_, ?_⟩
  · intro hcrit
    simp only [List.any_append, Bool.or_eq_true, any_toList_cw] at hcrit ⊢
    rcases hcrit with ((h1 | h1) | h1) | h1
    · exact Or.inl (Or.inl (Or.inl (any_toList_crit _ h1)))
    · exact Or.inl (Or.inl (Or.inr (any_toList_crit _ h1)))
    · exact Or.inl (Or.inr (any_toList_crit _ h1))
    · exact Or.inr (any_toList_crit _ h1)
  · simp only [List.any_append, Bool.or_eq_true, any_toList_cw]
    by_cases hemp : H.2 ++ G.2 ++ B.2 ++ C.2 = []
    · have h0 : (H.2 ++ G.2 ++ B.2 ++ C.2).length = 0 := by rw [hemp]; rfl
      rw [lenEq] at h0
      simp only [hemp, if_pos rfl]
      constructor
      · intro hne; exact absurd rfl hne
      · intro hw
        exfalso
        split_ifs at h0 with i1 i2 i3 i4 <;> simp_all
    · simp only [if_neg hemp]
      have hlen : (H.2 ++ G.2 ++ B.2 ++ C.2).length ≠ 0 := by
        intro h0
        exact hemp (List.length_eq_zero.mp h0)
      rw [lenEq] at hlen
      constructor
      · intro _
        by_contra hfalse
        simp only [not_or, Bool.not_eq_true] at hfalse
        obtain ⟨⟨⟨h1, h2⟩, h3⟩, h4⟩ := hfalse
        rw [h1, h2, h3, h4] at hlen
        simp at hlen
      · intro _
        simp
  · by_cases hemp : H.2 ++ G.2 ++ B.2 ++ C.2 = []
    · have h0 : (H.2 ++ G.2 ++ B.2 ++ C.2).length = 0 := by rw [hemp]; rfl
      rw [lenEq] at h0
      rw [if_pos hemp]
      simp only [Option.getD_none, List.length_nil]
      omega
    · rw [if_neg hemp]
      simp only [Option.getD_some]
      exact lenEq

/-- Witness for C10 at the concrete mapping `glucose = "210 mg/dL"` (a
CRITICAL reading). -/
theorem C10_alert_flag_agreement_witness :
    (assess_metric_severity { glucose := some (sl "210 mg/dL") }).hasWarning = true :=
  (C10_alert_flag_agreement { glucose := some (sl "210 mg/dL") }).1 (by decide)

/-! ### C4: predecessor selection in `calculate_trends` -/

/-- **C4.** For a history list (the at-most-10 most recent documents,
descending by upload time), `calculate_trends` returns
`hasPreviousReport = false` with empty changes exactly when the target id
does not occur in the list, or occurs as its last (oldest) element, or the
element immediately after it has an empty or missing metrics mapping;
otherwise the predecessor is the element at the target index plus one,
`hasPreviousReport = true`, and `previousDate` is that predecessor's upload
date. -/
theorem C4_trend_predecessor (id : Str) (docs : List Doc) (cm : MetricSet) :
    (((calculate_trends id docs cm).hasPreviousReport = false ∧
      (calculate_trends id docs cm).changes = emptyChanges) ↔
      (docs.findIdx? (fun d => d.id = id) = none ∨
       ∃ i, docs.findIdx? (fun d => d.id = id) = some i ∧
         (i + 1 = docs.length ∨
          ∃ p, docs.get? (i + 1) = some p ∧
            p.metrics.getD emptyMetrics = emptyMetrics))) ∧
    (∀ i p, docs.findIdx? (fun d => d.id = id) = some i →
      docs.get? (i + 1) = some p →
      p.metrics.getD emptyMetrics ≠ emptyMetrics →
      (calculate_trends id docs cm).hasPreviousReport = true ∧
      (calculate_trends id docs cm).previousDate = some p.uploadDate ∧
      (calculate_trends id docs cm).changes =
        trendChanges cm (p.metrics.getD emptyMetrics)) := by
  constructor
  · cases hf : docs.findIdx? (fun d => d.id = id) with
    | none =>
      simp only [calculate_trends, hf]
      simp [emptyTrends]
    | some i =>
      have hlt : i < docs.length :=
        (List.findIdx?_eq_some_iff_findIdx_eq.mp hf).1
      by_cases hge : i + 1 ≥ docs.length
      · simp only [calculate_trends, hf, if_pos hge]
        have hlen : i + 1 = docs.length := by omega
        constructor
        · intro _
          exact Or.inr ⟨i, rfl, Or.inl hlen⟩
        · intro _
          exact ⟨rfl, rfl⟩
      · obtain ⟨p, hp⟩ : ∃ p, docs.get? (i + 1) = some p := by
          rw [List.get?_eq_getElem?]
          exact ⟨_, List.getElem?_eq_some_iff.mpr ⟨by omega, rfl⟩⟩
        simp only [calculate_trends, hf, if_neg hge, hp]
        by_cases hm : p.metrics.getD emptyMetrics = emptyMetrics
        · rw [if_pos hm]
          constructor
          · intro _
            exact Or.inr ⟨i, rfl, Or.inr ⟨p, hp, hm⟩⟩
          · intro _
            exact ⟨rfl, rfl⟩
        · rw [if_neg hm]
          constructor
          · rintro ⟨hfalse, -⟩
            exact Bool.noConfusion hfalse
          · rintro (h | ⟨j, hj, hrest⟩)
            · exact Option.noConfusion h
            · injection hj with hj
              subst hj
              rcases hrest with hlen | ⟨q, hq, hqm⟩
              · omega
              · rw [hp] at hq
                injection hq with hq
                subst hq
                exact absurd hqm hm
  · intro i p hf hp hm
    have hlt : i + 1 < docs.length := by
      rw [List.get?_eq_getElem?] at hp
      obtain ⟨h, -⟩ := List.getElem?_eq_some_iff.mp hp
      exact h
    simp only [calculate_trends, hf, if_neg (by omega : ¬i + 1 ≥ docs.length), hp,
      if_neg hm]
    simp

/-- Witness for C4 at a concrete two-element history. -/
theorem C4_trend_predecessor_witness :
    (calculate_trends (sl "A")
      [{ id := sl "A", uploadDate := 2, metrics := some { hba1c := some (sl "7.0%") } },
       { id := sl "B", uploadDate := 1, metrics := some { hba1c := some (sl "7.5%") } }]
      { hba1c := some (sl "7.0%") }).hasPreviousReport = true ∧
    (calculate_trends (sl "A")
      [{ id := sl "A", uploadDate := 2, metrics := some { hba1c := some (sl "7.0%") } },
       { id := sl "B", uploadDate := 1, metrics := some { hba1c := some (sl "7.5%") } }]
      { hba1c := some (sl "7.0%") }).previousDate = some 1 ∧
    (calculate_trends (sl "A")
      [{ id := sl "A", uploadDate := 2, metrics := some { hba1c := some (sl "7.0%") } },
       { id := sl "B", uploadDate := 1, metrics := some { hba1c := some (sl "7.5%") } }]
      { hba1c := some (sl "7.0%") }).changes =
      trendChanges { hba1c := some (sl "7.0%") }
        (({ id := sl "B", uploadDate := 1,
            metrics := some { hba1c := some (sl "7.5%") } } : Doc).metrics.getD
          emptyMetrics) :=
  (C4_trend_predecessor (sl "A")
    [{ id := sl "A", uploadDate := 2, metrics := some { hba1c := some (sl "7.0%") } },
     { id := sl "B", uploadDate := 1, metrics := some { hba1c := some (sl "7.5%") } }]
    { hba1c := some (sl "7.0%") }).2 0
    { id := sl "B", uploadDate := 1, metrics := some { hba1c := some (sl "7.5%") } }
    (by decide) (by decide) (by decide)

/-! ### Behaviour of the four trend-comparison steps -/

/-- The HbA1c step only ever escapes with its input state unchanged. -/
lemma trendStepHba1c_error (cm pm : MetricSet) (ch r : Changes)
    (h : trendStepHba1c cm pm ch = .error r) : r = ch := by
  unfold trendStepHba1c at h
  repeat' split at h
  all_goals first
    | exact Except.noConfusion h
    | (injection h with h; exact h.symm)

/-- The HbA1c step never touches the other three change fields. -/
lemma trendStepHba1c_ok_fields (cm pm : MetricSet) (ch r : Changes)
    (h : trendStepHba1c cm pm ch = .ok r) :
    r.glucose = ch.glucose ∧ r.blood_pressure = ch.blood_pressure ∧
      r.cholesterol = ch.cholesterol := by
  unfold trendStepHba1c at h
  repeat' split at h
  all_goals first
    | exact Except.noConfusion h
    | (injection h with h; subst h; simp)

/-- The glucose step only ever escapes with its input state unchanged. -/
lemma trendStepGlucose_error (cm pm : MetricSet) (ch r : Changes)
    (h : trendStepGlucose cm pm ch = .error r) : r = ch := by
  unfold trendStepGlucose at h
  repeat' split at h
  all_goals first
    | exact Except.noConfusion h
    | (injection h with h; exact h.symm)

/-- The glucose step never touches the other three change fields. -/
lemma trendStepGlucose_ok_fields (cm pm : MetricSet) (ch r : Changes)
    (h : trendStepGlucose cm pm ch = .ok r) :
    r.hba1c = ch.hba1c ∧ r.blood_pressure = ch.blood_pressure ∧
      r.cholesterol = ch.cholesterol := by
  unfold trendStepGlucose at h
  repeat' split at h
  all_goals first
    | exact Except.noConfusion h
    | (injection h with h; subst h; simp)

/-- The blood-pressure step only ever escapes with its input state
unchanged. -/
lemma trendStepBp_error (cm pm : MetricSet) (ch r : Changes)
    (h : trendStepBp cm pm ch = .error r) : r = ch := by
  unfold trendStepBp at h
  repeat' split at h
  all_goals first
    | exact Except.noConfusion h
    | (injection h with h; exact h.symm)

/-- The blood-pressure step never touches the other three change fields. -/
lemma trendStepBp_ok_fields (cm pm : MetricSet) (ch r : Changes)
    (h : trendStepBp cm pm ch = .ok r) :
    r.hba1c = ch.hba1c ∧ r.glucose = ch.glucose ∧
      r.cholesterol = ch.cholesterol := by
  unfold trendStepBp at h
  repeat' split at h
  all_goals first
    | exact Except.noConfusion h
    | (injection h with h; subst h; simp)

/-- The cholesterol step only ever escapes with its input state unchanged. -/
lemma trendStepChol_error (cm pm : MetricSet) (ch r : Changes)
    (h : trendStepChol cm pm ch = .error r) : r = ch := by
  unfold trendStepChol at h
  repeat' split at h
  all_goals first
    | exact Except.noConfusion h
    | (injection h with h; exact h.symm)

/-- The cholesterol step never touches the other three change fields. -/
lemma trendStepChol_ok_fields (cm pm : MetricSet) (ch r : Changes)
    (h : trendStepChol cm pm ch = .ok r) :
    r.hba1c = ch.hba1c ∧ r.glucose = ch.glucose ∧
      r.blood_pressure = ch.blood_pressure := by
  unfold trendStepChol at h
  repeat' split at h
  all_goals first
    | exact Except.noConfusion h
    | (injection h with h; subst h; simp)

/-- After the glucose step, the remaining two steps keep `.glucose`. -/
lemma tail2_glucose (cm pm : MetricSet) (ch : Changes) :
    (exVal ((trendStepBp cm pm ch).bind (trendStepChol cm pm))).glucose =
      ch.glucose := by
  cases h3 : trendStepBp cm pm ch with
  | error r =>
    show r.glucose = ch.glucose
    rw [trendStepBp_error cm pm ch r h3]
  | ok r =>
    have hf3 := trendStepBp_ok_fields cm pm ch r h3
    show (exVal (trendStepChol cm pm r)).glucose = ch.glucose
    cases h4 : trendStepChol cm pm r with
    | error q =>
      show q.glucose = ch.glucose
      rw [trendStepChol_error cm pm r q h4]
      exact hf3.2.1
    | ok q =>
      have hf4 := trendStepChol_ok_fields cm pm r q h4
      show q.glucose = ch.glucose
      rw [hf4.2.1]
      exact hf3.2.1

/-- After the HbA1c step, the remaining three steps keep `.hba1c`. -/
lemma tail3_hba1c (cm pm : MetricSet) (ch : Changes) :
    (exVal ((trendStepGlucose cm pm ch).bind
      (fun c2 => (trendStepBp cm pm c2).bind (trendStepChol cm pm)))).hba1c =
      ch.hba1c := by
  cases h2 : trendStepGlucose cm pm ch with
  | error r =>
    show r.hba1c = ch.hba1c
    rw [trendStepGlucose_error cm pm ch r h2]
  | ok r =>
    have hf2 := trendStepGlucose_ok_fields cm pm ch r h2
    show (exVal ((trendStepBp cm pm r).bind (trendStepChol cm pm))).hba1c = ch.hba1c
    cases h3 : trendStepBp cm pm r with
    | error q =>
      show q.hba1c = ch.hba1c
      rw [trendStepBp_error cm pm r q h3]
      exact hf2.1
    | ok q =>
      have hf3 := trendStepBp_ok_fields cm pm r q h3
      show (exVal (trendStepChol cm pm q)).hba1c = ch.hba1c
      cases h4 : trendStepChol cm pm q with
      | error w =>
        show w.hba1c = ch.hba1c
        rw [trendStepChol_error cm pm q w h4, hf3.1]
        exact hf2.1
      | ok w =>
        have hf4 := trendStepChol_ok_fields cm pm q w h4
        show w.hba1c = ch.hba1c
        rw [hf4.1, hf3.1]
        exact hf2.1

/-- After the blood-pressure step, the cholesterol step keeps
`.blood_pressure`. -/
lemma tail1_bp (cm pm : MetricSet) (ch : Changes) :
    (exVal (trendStepChol cm pm ch)).blood_pressure = ch.blood_pressure := by
  cases h4 : trendStepChol cm pm ch with
  | error q =>
    show q.blood_pressure = ch.blood_pressure
    rw [trendStepChol_error cm pm ch q h4]
  | ok q =>
    have hf4 := trendStepChol_ok_fields cm pm ch q h4
    show q.blood_pressure = ch.blood_pressure
    rw [hf4.2.2]

/-! ### C7: parse-failure isolation (severity) versus abort (trends) -/

/-- **C7 (amended).** In the Severity Assessor a metric value that fails
numeric parsing is skipped in isolation: the metric gets no severity record
while every other metric's record and the alert list are the same as if the
bad metric were absent (shown for each of the four metrics).  In the Trend
Comparator, however, the claim fails as stated: a parse failure in the
HbA1c comparison escapes the single enclosing `try`, so no comparison is
recorded at all — even for metrics present and parseable in both documents
(see the counterexample). -/
theorem C7_parse_isolation_amended :
    (∀ (m : MetricSet) (s : Str), truthy m.hba1c = some s → parse_hba1c s = none →
      (assess_metric_severity m).severity.hba1c = none ∧
      (assess_metric_severity m).severity.glucose =
        (assess_metric_severity { m with hba1c := none }).severity.glucose ∧
      (assess_metric_severity m).severity.blood_pressure =
        (assess_metric_severity { m with hba1c := none }).severity.blood_pressure ∧
      (assess_metric_severity m).severity.cholesterol =
        (assess_metric_severity { m with hba1c := none }).severity.cholesterol ∧
      (assess_metric_severity m).criticalAlerts =
        (assess_metric_severity { m with hba1c := none }).criticalAlerts) ∧
    (∀ (m : MetricSet) (s : Str), truthy m.glucose = some s → parse_int_tok s = none →
      (assess_metric_severity m).severity.glucose = none ∧
      (assess_metric_severity m).severity.hba1c =
        (assess_metric_severity { m with glucose := none }).severity.hba1c ∧
      (assess_metric_severity m).severity.blood_pressure =
        (assess_metric_severity { m with glucose := none }).severity.blood_pressure ∧
      (assess_metric_severity m).severity.cholesterol =
        (assess_metric_severity { m with glucose := none }).severity.cholesterol ∧
      (assess_metric_severity m).criticalAlerts =
        (assess_metric_severity { m with glucose := none }).criticalAlerts) ∧
    (∀ (m : MetricSet) (s : Str), truthy m.blood_pressure = some s →
      parse_bp s = none →
      (assess_metric_severity m).severity.blood_pressure = none ∧
      (assess_metric_severity m).severity.hba1c =
        (assess_metric_severity { m with blood_pressure := none }).severity.hba1c ∧
      (assess_metric_severity m).severity.glucose =
        (assess_metric_severity { m with blood_pressure := none }).severity.glucose ∧
      (assess_metric_severity m).severity.cholesterol =
        (assess_metric_severity { m with blood_pressure := none }).severity.cholesterol ∧
      (assess_metric_severity m).criticalAlerts =
        (assess_metric_severity { m with blood_pressure := none }).criticalAlerts) ∧
    (∀ (m : MetricSet) (s : Str), truthy m.cholesterol = some s →
      parse_int_tok s = none →
      (assess_metric_severity m).severity.cholesterol = none ∧
      (assess_metric_severity m).severity.hba1c =
        (assess_metric_severity { m with cholesterol := none }).severity.hba1c ∧
      (assess_metric_severity m).severity.glucose =
        (assess_metric_severity { m with cholesterol := none }).severity.glucose ∧
      (assess_metric_severity m).severity.blood_pressure =
        (assess_metric_severity { m with cholesterol := none }).severity.blood_pressure ∧
      (assess_metric_severity m).criticalAlerts =
        (assess_metric_severity { m with cholesterol := none }).criticalAlerts) ∧
    (∀ (cm pm : MetricSet) (cs ps : Str), truthy cm.hba1c = some cs →
      truthy pm.hba1c = some ps →
      parse_hba1c cs = none ∨ parse_hba1c ps = none →
      trendChanges cm pm = emptyChanges) := by
  refine ⟨?_, ?_, ?_, ?_, ?_⟩
  · intro m s h1 h2
    have hblock : hba1cSeverity m.hba1c = (none, []) := by
      simp [hba1cSeverity, h1, h2]
    have hblock2 : hba1cSeverity (none : Option Str) = (none, []) := rfl
    refine ⟨?_, ?_, ?_, ?_, ?_⟩ <;>
      simp [assess_metric_severity, hblock, hblock2]
  · intro m s h1 h2
    have hblock : glucoseSeverity m.glucose = (none, []) := by
      simp [glucoseSeverity, h1, h2]
    have hblock2 : glucoseSeverity (none : Option Str) = (none, []) := rfl
    refine ⟨?_, ?_, ?_, ?_, ?_⟩ <;>
      simp [assess_metric_severity, hblock, hblock2]
  · intro m s h1 h2
    have hblock : bpSeverity m.blood_pressure = (none, []) := by
      simp [bpSeverity, h1, h2]
    have hblock2 : bpSeverity (none : Option Str) = (none, []) := rfl
    refine ⟨?_, ?_, ?_, ?_, ?_⟩ <;>
      simp [assess_metric_severity, hblock, hblock2]
  · intro m s h1 h2
    have hblock : cholesterolSeverity m.cholesterol = (none, []) := by
      simp [cholesterolSeverity, h1, h2]
    have hblock2 : cholesterolSeverity (none : Option Str) = (none, []) := rfl
    refine ⟨?_, ?_, ?_, ?_, ?_⟩ <;>
      simp [assess_metric_severity, hblock, hblock2]
  · intro cm pm cs ps h1 h2 h3
    have hstep : trendStepHba1c cm pm emptyChanges = .error emptyChanges := by
      rcases h3 with hA | hB
      · simp [trendStepHba1c, h1, h2, hA]
      · cases hcs : parse_hba1c cs with
        | none => simp [trendStepHba1c, h1, h2, hcs]
        | some cv => simp [trendStepHba1c, h1, h2, hcs, hB]
    unfold trendChanges
    rw [hstep]
    rfl

/-- **C7 (counterexample to the claim as stated).** With a current document
whose hba1c value is unparseable but whose glucose value is fine — and a
predecessor carrying parseable values for both — `calculate_trends` records
no glucose change at all, although glucose is present and parseable in both
documents. -/
theorem C7_parse_isolation_counterexample :
    (calculate_trends (sl "A")
      [{ id := sl "A", uploadDate := 2,
         metrics := some { hba1c := some (sl "x%"), glucose := some (sl "150 mg/dL") } },
       { id := sl "B", uploadDate := 1,
         metrics := some { hba1c := some (sl "7.0%"), glucose := some (sl "140 mg/dL") } }]
      { hba1c := some (sl "x%"), glucose := some (sl "150 mg/dL") }).hasPreviousReport
        = true ∧
    parse_float_tok (sl "150 mg/dL") = some 150 ∧
    parse_float_tok (sl "140 mg/dL") = some 140 ∧
    (calculate_trends (sl "A")
      [{ id := sl "A", uploadDate := 2,
         metrics := some { hba1c := some (sl "x%"), glucose := some (sl "150 mg/dL") } },
       { id := sl "B", uploadDate := 1,
         metrics := some { hba1c := some (sl "7.0%"), glucose := some (sl "140 mg/dL") } }]
      { hba1c := some (sl "x%"), glucose := some (sl "150 mg/dL") }).changes.glucose
        = none := by
  refine ⟨by decide, ?_, ?_, by decide⟩
  · have h := parse_float_tok_digits ['1', '5', '0'] (sl "mg/dL") (by decide) (by decide)
    rw [show sl "150 mg/dL" = ['1', '5', '0'] ++ ' ' :: sl "mg/dL" from rfl, h,
      show natOfDigits ['1', '5', '0'] = 150 from by decide]
    norm_num
  · have h := parse_float_tok_digits ['1', '4', '0'] (sl "mg/dL") (by decide) (by decide)
    rw [show sl "140 mg/dL" = ['1', '4', '0'] ++ ' ' :: sl "mg/dL" from rfl, h,
      show natOfDigits ['1', '4', '0'] = 140 from by decide]
    norm_num

/-- Witness for the amended C7 at concrete inputs: the trend abort on an
unparseable hba1c, and severity isolation of an unparseable blood
pressure. -/
theorem C7_parse_isolation_amended_witness :
    (trendChanges { hba1c := some (sl "x%"), glucose := some (sl "150 mg/dL") }
      { hba1c := some (sl "7.0%"), glucose := some (sl "140 mg/dL") }
        = emptyChanges) ∧
    ((assess_metric_severity
        { blood_pressure := some (sl "abc") }).severity.blood_pressure = none ∧
      (assess_metric_severity { blood_pressure := some (sl "abc") }).severity.hba1c =
        (assess_metric_severity
          { ({ blood_pressure := some (sl "abc") } : MetricSet) with
            blood_pressure := none }).severity.hba1c ∧
      (assess_metric_severity { blood_pressure := some (sl "abc") }).severity.glucose =
        (assess_metric_severity
          { ({ blood_pressure := some (sl "abc") } : MetricSet) with
            blood_pressure := none }).severity.glucose ∧
      (assess_metric_severity
          { blood_pressure := some (sl "abc") }).severity.cholesterol =
        (assess_metric_severity
          { ({ blood_pressure := some (sl "abc") } : MetricSet) with
            blood_pressure := none }).severity.cholesterol ∧
      (assess_metric_severity { blood_pressure := some (sl "abc") }).criticalAlerts =
        (assess_metric_severity
          { ({ blood_pressure := some (sl "abc") } : MetricSet) with
            blood_pressure := none }).criticalAlerts) :=
  ⟨C7_parse_isolation_amended.2.2.2.2
      { hba1c := some (sl "x%"), glucose := some (sl "150 mg/dL") }
      { hba1c := some (sl "7.0%"), glucose := some (sl "140 mg/dL") }
      (sl "x%") (sl "7.0%") (by decide) (by decide) (Or.inl (by decide)),
    C7_parse_isolation_amended.2.2.1
      { blood_pressure := some (sl "abc") } (sl "abc") (by decide) (by decide)⟩

/-! ### C5: recorded changes and direction thresholds -/

/-- Direction strings of a trend record versus the unrounded change, rational
case: `"up"` iff the change exceeds the noise threshold, `"down"` iff it is
below the negated threshold, `"stable"` otherwise, and the improving flag
agrees with `"down"`. -/
lemma direction_spec_rat (c T : ℚ) (hT : 0 < T) :
    ((if c > T then sl "up" else if c < -T then sl "down" else sl "stable") = sl "up"
      ↔ c > T) ∧
    ((if c > T then sl "up" else if c < -T then sl "down" else sl "stable") = sl "down"
      ↔ c < -T) ∧
    ((if c > T then sl "up" else if c < -T then sl "down" else sl "stable") = sl "stable"
      ↔ ¬c > T ∧ ¬c < -T) ∧
    (decide (c < -T) = true ↔
      (if c > T then sl "up" else if c < -T then sl "down" else sl "stable")
        = sl "down") := by
  by_cases h1 : c > T
  · have h2 : ¬c < -T := by intro h; linarith
    rw [if_pos h1]
    refine ⟨iff_of_true rfl h1, iff_of_false (by decide) h2,
      iff_of_false (by decide) (fun hh => hh.1 h1), ?_⟩
    simp only [decide_eq_true_eq]
    exact iff_of_false h2 (by decide)
  · by_cases h2 : c < -T
    · rw [if_neg h1, if_pos h2]
      refine ⟨iff_of_false (by decide) h1, iff_of_true rfl h2,
        iff_of_false (by decide) (fun hh => hh.2 h2), ?_⟩
      simp only [decide_eq_true_eq]
      exact iff_of_true h2 trivial
    · rw [if_neg h1, if_neg h2]
      refine ⟨iff_of_false (by decide) h1, iff_of_false (by decide) h2,
        iff_of_true rfl ⟨h1, h2⟩, ?_⟩
      simp only [decide_eq_true_eq]
      exact iff_of_false h2 (by decide)

/-- Direction strings of a trend record versus the change, integer case. -/
lemma direction_spec_int (c T : ℤ) (hT : 0 < T) :
    ((if c > T then sl "up" else if c < -T then sl "down" else sl "stable") = sl "up"
      ↔ c > T) ∧
    ((if c > T then sl "up" else if c < -T then sl "down" else sl "stable") = sl "down"
      ↔ c < -T) ∧
    ((if c > T then sl "up" else if c < -T then sl "down" else sl "stable") = sl "stable"
      ↔ ¬c > T ∧ ¬c < -T) ∧
    (decide (c < -T) = true ↔
      (if c > T then sl "up" else if c < -T then sl "down" else sl "stable")
        = sl "down") := by
  by_cases h1 : c > T
  · have h2 : ¬c < -T := by omega
    rw [if_pos h1]
    refine ⟨iff_of_true rfl h1, iff_of_false (by decide) h2,
      iff_of_false (by decide) (fun hh => hh.1 h1), ?_⟩
    simp only [decide_eq_true_eq]
    exact iff_of_false h2 (by decide)
  · by_cases h2 : c < -T
    · rw [if_neg h1, if_pos h2]
      refine ⟨iff_of_false (by decide) h1, iff_of_true rfl h2,
        iff_of_false (by decide) (fun hh => hh.2 h2), ?_⟩
      simp only [decide_eq_true_eq]
      exact iff_of_true h2 trivial
    · rw [if_neg h1, if_neg h2]
      refine ⟨iff_of_false (by decide) h1, iff_of_false (by decide) h2,
        iff_of_true rfl ⟨h1, h2⟩, ?_⟩
      simp only [decide_eq_true_eq]
      exact iff_of_false h2 (by decide)

/-- Evaluation helper: an HbA1c value string whose percent-free form is
`a.b` parses to the denoted rational. -/
lemma parse_hba1c_eval (s a b : Str) (v : ℚ) (hs : dropPct s = a ++ '.' :: b)
    (ha : ∀ c ∈ a, isDig c = true) (hne : a ≠ []) (hb : ∀ c ∈ b, isDig c = true)
    (hv : (natOfDigits a : ℚ) + (natOfDigits b : ℚ) / 10 ^ b.length = v) :
    parse_hba1c s = some v := by
  rw [parse_hba1c, hs, pyFloat?_point a b ha hne hb, hv]

/-- **C5 (amended).** For each metric present (truthily) in both documents
with parseable values — and, for metrics after HbA1c, provided no earlier
comparison aborted on an unparseable value (cf. C7) — the trend comparison
records a change field equal to `round(current − previous, 1)` for HbA1c,
`int(current − previous)` (truncation) for glucose, and the exact integer
difference for blood pressure (systolic) and cholesterol; the direction is
`"up"` iff the unrounded change exceeds the noise threshold (0.1, 5, 5, 10
respectively), `"down"` iff it is below the negated threshold, `"stable"`
otherwise, and `isImproving` holds exactly when the direction is `"down"`.
In particular, on the two-document history of the section-8 example
(current hba1c `"7.0%"`, predecessor `"7.5%"`) the recorded change is
`-0.5` with direction `"down"` and `isImproving = true`. -/
theorem C5_trend_change_fields (cm pm : MetricSet) :
    (∀ cs ps cv pv, truthy cm.hba1c = some cs → truthy pm.hba1c = some ps →
      parse_hba1c cs = some cv → parse_hba1c ps = some pv →
      ∃ rec, (trendChanges cm pm).hba1c = some rec ∧
        rec.change = pyRound1 (cv - pv) ∧
        (rec.direction = sl "up" ↔ cv - pv > 0.1) ∧
        (rec.direction = sl "down" ↔ cv - pv < -0.1) ∧
        (rec.direction = sl "stable" ↔ ¬cv - pv > 0.1 ∧ ¬cv - pv < -0.1) ∧
        (rec.isImproving = true ↔ rec.direction = sl "down")) ∧
    (∀ c1 cs ps cv pv, trendStepHba1c cm pm emptyChanges = .ok c1 →
      truthy cm.glucose = some cs → truthy pm.glucose = some ps →
      parse_float_tok cs = some cv → parse_float_tok ps = some pv →
      ∃ rec, (trendChanges cm pm).glucose = some rec ∧
        rec.change = (pyTrunc (cv - pv) : ℚ) ∧
        (rec.direction = sl "up" ↔ cv - pv > 5) ∧
        (rec.direction = sl "down" ↔ cv - pv < -5) ∧
        (rec.direction = sl "stable" ↔ ¬cv - pv > 5 ∧ ¬cv - pv < -5) ∧
        (rec.isImproving = true ↔ rec.direction = sl "down")) ∧
    (∀ c1 c2 cs ps cv pv, trendStepHba1c cm pm emptyChanges = .ok c1 →
      trendStepGlucose cm pm c1 = .ok c2 →
      truthy cm.blood_pressure = some cs → truthy pm.blood_pressure = some ps →
      parse_bp_sys cs = some cv → parse_bp_sys ps = some pv →
      ∃ rec, (trendChanges cm pm).blood_pressure = some rec ∧
        rec.change = ((cv - pv : ℤ) : ℚ) ∧
        (rec.direction = sl "up" ↔ cv - pv > 5) ∧
        (rec.direction = sl "down" ↔ cv - pv < -5) ∧
        (rec.direction = sl "stable" ↔ ¬cv - pv > 5 ∧ ¬cv - pv < -5) ∧
        (rec.isImproving = true ↔ rec.direction = sl "down")) ∧
    (∀ c1 c2 c3 cs ps cv pv, trendStepHba1c cm pm emptyChanges = .ok c1 →
      trendStepGlucose cm pm c1 = .ok c2 →
      trendStepBp cm pm c2 = .ok c3 →
      truthy cm.cholesterol = some cs → truthy pm.cholesterol = some ps →
      parse_int_tok cs = some cv → parse_int_tok ps = some pv →
      ∃ rec, (trendChanges cm pm).cholesterol = some rec ∧
        rec.change = ((cv - pv : ℤ) : ℚ) ∧
        (rec.direction = sl "up" ↔ cv - pv > 10) ∧
        (rec.direction = sl "down" ↔ cv - pv < -10) ∧
        (rec.direction = sl "stable" ↔ ¬cv - pv > 10 ∧ ¬cv - pv < -10) ∧
        (rec.isImproving = true ↔ rec.direction = sl "down")) := by
  refine ⟨?_, ?_, ?_, ?_⟩
  · intro cs ps cv pv h1 h2 h3 h4
    have hstep : trendStepHba1c cm pm emptyChanges = .ok
        { emptyChanges with hba1c := some ({
          current := cs, previous := ps,
            change := pyRound1 (cv - pv),
            changePercent :=
              some (if pv > 0 then pyRound1 ((cv - pv) / pv * 100) else 0),
            direction := if cv - pv > 0.1 then sl "up"
              else if cv - pv < -0.1 then sl "down" else sl "stable",
            arrow := if cv - pv > 0.1 then sl "↑"
              else if cv - pv < -0.1 then sl "↓" else sl "→",
            isImproving := cv - pv < -0.1 }) } := by
      simp only [trendStepHba1c, h1, h2, h3, h4]
    have hd := direction_spec_rat (cv - pv) 0.1 (by norm_num)
    refine ⟨({
          current := cs, previous := ps,
            change := pyRound1 (cv - pv),
            changePercent :=
              some (if pv > 0 then pyRound1 ((cv - pv) / pv * 100) else 0),
            direction := if cv - pv > 0.1 then sl "up"
              else if cv - pv < -0.1 then sl "down" else sl "stable",
            arrow := if cv - pv > 0.1 then sl "↑"
              else if cv - pv < -0.1 then sl "↓" else sl "→",
            isImproving := cv - pv < -0.1 } : ChangeRec),
      ?_, rfl, hd.1, hd.2.1, hd.2.2.1, hd.2.2.2⟩
    unfold trendChanges
    rw [hstep]
    exact tail3_hba1c cm pm _
  · intro c1 cs ps cv pv hc1 h1 h2 h3 h4
    have hstep : trendStepGlucose cm pm c1 = .ok
        { c1 with glucose := some ({
          current := cs, previous := ps,
            change := (pyTrunc (cv - pv) : ℚ),
            changePercent :=
              some (if pv > 0 then pyRound1 ((cv - pv) / pv * 100) else 0),
            direction := if cv - pv > 5 then sl "up"
              else if cv - pv < -5 then sl "down" else sl "stable",
            arrow := if cv - pv > 5 then sl "↑"
              else if cv - pv < -5 then sl "↓" else sl "→",
            isImproving := cv - pv < -5 }) } := by
      simp only [trendStepGlucose, h1, h2, h3, h4]
    have hd := direction_spec_rat (cv - pv) 5 (by norm_num)
    refine ⟨({
          current := cs, previous := ps,
            change := (pyTrunc (cv - pv) : ℚ),
            changePercent :=
              some (if pv > 0 then pyRound1 ((cv - pv) / pv * 100) else 0),
            direction := if cv - pv > 5 then sl "up"
              else if cv - pv < -5 then sl "down" else sl "stable",
            arrow := if cv - pv > 5 then sl "↑"
              else if cv - pv < -5 then sl "↓" else sl "→",
            isImproving := cv - pv < -5 } : ChangeRec),
      ?_, rfl, hd.1, hd.2.1, hd.2.2.1, hd.2.2.2⟩
    unfold trendChanges
    rw [hc1]
    show (exVal ((trendStepGlucose cm pm c1).bind
      (fun ch2 => (trendStepBp cm pm ch2).bind (trendStepChol cm pm)))).glucose = _
    rw [hstep]
    exact tail2_glucose cm pm _
  · intro c1 c2 cs ps cv pv hc1 hc2 h1 h2 h3 h4
    have hstep : trendStepBp cm pm c2 = .ok
        { c2 with blood_pressure := some ({
          current := cs, previous := ps,
            change := ((cv - pv : ℤ) : ℚ),
            changePercent := none,
            direction := if cv - pv > 5 then sl "up"
              else if cv - pv < -5 then sl "down" else sl "stable",
            arrow := if cv - pv > 5 then sl "↑"
              else if cv - pv < -5 then sl "↓" else sl "→",
            isImproving := cv - pv < -5 }) } := by
      simp only [trendStepBp, h1, h2, h3, h4]
    have hd := direction_spec_int (cv - pv) 5 (by norm_num)
    refine ⟨({
          current := cs, previous := ps,
            change := ((cv - pv : ℤ) : ℚ),
            changePercent := none,
            direction := if cv - pv > 5 then sl "up"
              else if cv - pv < -5 then sl "down" else sl "stable",
            arrow := if cv - pv > 5 then sl "↑"
              else if cv - pv < -5 then sl "↓" else sl "→",
            isImproving := cv - pv < -5 } : ChangeRec),
      ?_, rfl, hd.1, hd.2.1, hd.2.2.1, hd.2.2.2⟩
    unfold trendChanges
    rw [hc1]
    show (exVal ((trendStepGlucose cm pm c1).bind
      (fun ch2 => (trendStepBp cm pm ch2).bind (trendStepChol cm pm)))).blood_pressure
        = _
    rw [hc2]
    show (exVal ((trendStepBp cm pm c2).bind (trendStepChol cm pm))).blood_pressure = _
    rw [hstep]
    show (exVal (trendStepChol cm pm _)).blood_pressure = _
    exact tail1_bp cm pm _
  · intro c1 c2 c3 cs ps cv pv hc1 hc2 hc3 h1 h2 h3 h4
    have hstep : trendStepChol cm pm c3 = .ok
        { c3 with cholesterol := some ({
          current := cs, previous := ps,
            change := ((cv - pv : ℤ) : ℚ),
            changePercent := none,
            direction := if cv - pv > 10 then sl "up"
              else if cv - pv < -10 then sl "down" else sl "stable",
            arrow := if cv - pv > 10 then sl "↑"
              else if cv - pv < -10 then sl "↓" else sl "→",
            isImproving := cv - pv < -10 }) } := by
      simp only [trendStepChol, h1, h2, h3, h4]
    have hd := direction_spec_int (cv - pv) 10 (by norm_num)
    refine ⟨({
          current := cs, previous := ps,
            change := ((cv - pv : ℤ) : ℚ),
            changePercent := none,
            direction := if cv - pv > 10 then sl "up"
              else if cv - pv < -10 then sl "down" else sl "stable",
            arrow := if cv - pv > 10 then sl "↑"
              else if cv - pv < -10 then sl "↓" else sl "→",
            isImproving := cv - pv < -10 } : ChangeRec),
      ?_, rfl, hd.1, hd.2.1, hd.2.2.1, hd.2.2.2⟩
    unfold trendChanges
    rw [hc1]
    show (exVal ((trendStepGlucose cm pm c1).bind
      (fun ch2 => (trendStepBp cm pm ch2).bind (trendStepChol cm pm)))).cholesterol = _
    rw [hc2]
    show (exVal ((trendStepBp cm pm c2).bind (trendStepChol cm pm))).cholesterol = _
    rw [hc3]
    show (exVal (trendStepChol cm pm c3)).cholesterol = _
    rw [hstep]
    rfl

/-- **C5 (counterexample to the claim as stated).** The claim says the
recorded change equals `current − previous`; for hba1c the source stores
`round(change, 1)`.  With current `"7.12%"` and predecessor `"7.0%"` the
exact difference is `0.12` but the recorded change is `0.1`. -/
theorem C5_trend_change_counterexample :
    parse_hba1c (sl "7.12%") = some (178 / 25) ∧
    parse_hba1c (sl "7.0%") = some 7 ∧
    ((calculate_trends (sl "A")
      [{ id := sl "A", uploadDate := 2,
         metrics := some { hba1c := some (sl "7.12%") } },
       { id := sl "B", uploadDate := 1,
         metrics := some { hba1c := some (sl "7.0%") } }]
      { hba1c := some (sl "7.12%") }).changes.hba1c.map fun r => r.change)
        = some (1 / 10) ∧
    (1 / 10 : ℚ) ≠ 178 / 25 - 7 := by
  have hp1 : parse_hba1c (sl "7.12%") = some (178 / 25) :=
    parse_hba1c_eval _ ['7'] ['1', '2'] _ rfl (by decide) (by decide) (by decide)
      (by
        rw [show natOfDigits ['7'] = 7 from by decide,
          show natOfDigits ['1', '2'] = 12 from by decide]
        norm_num)
  have hp2 : parse_hba1c (sl "7.0%") = some 7 :=
    parse_hba1c_eval _ ['7'] ['0'] _ rfl (by decide) (by decide) (by decide)
      (by
        rw [show natOfDigits ['7'] = 7 from by decide,
          show natOfDigits ['0'] = 0 from by decide]
        norm_num)
  refine ⟨hp1, hp2, ?_, by norm_num⟩
  have h0 : calculate_trends (sl "A")
      [{ id := sl "A", uploadDate := 2,
         metrics := some { hba1c := some (sl "7.12%") } },
       { id := sl "B", uploadDate := 1,
         metrics := some { hba1c := some (sl "7.0%") } }]
      { hba1c := some (sl "7.12%") } =
      { hasPreviousReport := true, previousDate := some 1,
        changes := trendChanges { hba1c := some (sl "7.12%") }
          { hba1c := some (sl "7.0%") } } := rfl
  rw [h0]
  have ht1 : truthy (some (sl "7.12%")) = some (sl "7.12%") := by decide
  have ht2 : truthy (some (sl "7.0%")) = some (sl "7.0%") := by decide
  obtain ⟨rec, hok, hchg⟩ : ∃ rec : ChangeRec,
      trendStepHba1c { hba1c := some (sl "7.12%") } { hba1c := some (sl "7.0%") }
        emptyChanges = .ok { emptyChanges with hba1c := some rec } ∧
      rec.change = pyRound1 (178 / 25 - 7) := by
    simp only [trendStepHba1c, ht1, ht2, hp1, hp2]
    exact ⟨_, rfl, rfl⟩
  show (trendChanges { hba1c := some (sl "7.12%") }
    { hba1c := some (sl "7.0%") }).hba1c.map (fun r => r.change) = some (1 / 10)
  unfold trendChanges
  rw [hok]
  show some rec.change = some (1 / 10)
  rw [Option.some_inj, hchg, pyRound1, roundHalfEven]
  norm_num

/-- Witness for C5 at the section-8 example: current hba1c "7.0%" against
predecessor "7.5%", recorded change `round(-0.5, 1) = -0.5`, direction
"down", `isImproving = true`. -/
theorem C5_trend_change_fields_witness :
    pyRound1 ((7 : ℚ) - 15 / 2) = -(1 / 2) ∧
    ∃ rec, (trendChanges { hba1c := some (sl "7.0%") }
        { hba1c := some (sl "7.5%") }).hba1c = some rec ∧
      rec.change = pyRound1 ((7 : ℚ) - 15 / 2) ∧
      (rec.direction = sl "up" ↔ (7 : ℚ) - 15 / 2 > 0.1) ∧
      (rec.direction = sl "down" ↔ (7 : ℚ) - 15 / 2 < -0.1) ∧
      (rec.direction = sl "stable" ↔
        ¬(7 : ℚ) - 15 / 2 > 0.1 ∧ ¬(7 : ℚ) - 15 / 2 < -0.1) ∧
      (rec.isImproving = true ↔ rec.direction = sl "down") := by
  refine ⟨by rw [pyRound1, roundHalfEven]; norm_num, ?_⟩
  exact (C5_trend_change_fields { hba1c := some (sl "7.0%") }
      { hba1c := some (sl "7.5%") }).1
    (sl "7.0%") (sl "7.5%") 7 (15 / 2) (by decide) (by decide)
    (parse_hba1c_eval _ ['7'] ['0'] _ rfl (by decide) (by decide) (by decide)
      (by
        rw [show natOfDigits ['7'] = 7 from by decide,
          show natOfDigits ['0'] = 0 from by decide]
        norm_num))
    (parse_hba1c_eval _ ['7'] ['5'] _ rfl (by decide) (by decide) (by decide)
      (by
        rw [show natOfDigits ['7'] = 7 from by decide,
          show natOfDigits ['5'] = 5 from by decide]
        norm_num))

/-! ## Question-padding lemmas for the fallback narrative -/

/-- Two character lists differ whenever they differ within the first `k`
characters and `k` lies inside the first summand of the right-hand side. -/
lemma ne_of_take_ne (q pre rest : Str) (k : ℕ) (hk : k ≤ pre.length)
    (h : q.take k ≠ pre.take k) : q ≠ pre ++ rest := by
  intro he
  exact h (by rw [he, List.take_append_of_le_length hk])

/-- The bounded-append fold of the generic-question loop grows the
accumulator to `min 5 (len acc + len pool)` whenever the pool is
duplicate-free and disjoint from the accumulator. -/
lemma foldl_bounded_append_length (pool : List Str) : ∀ acc : List Str,
    acc.length ≤ 5 → pool.Nodup → (∀ q ∈ pool, q ∉ acc) →
    (List.foldl (fun a q => if q ∉ a ∧ a.length < 5 then a ++ [q] else a) acc
      pool).length = min 5 (acc.length + pool.length) := by
  induction pool with
  | nil =>
    intro acc h5 _ _
    simp only [List.foldl, List.length_nil, Nat.add_zero]
    omega
  | cons q ps ih =>
    intro acc h5 hnd hdj
    simp only [List.foldl]
    have hq : q ∉ acc := hdj q (List.mem_cons_self q ps)
    rcases Nat.lt_or_ge acc.length 5 with hl | hl
    · rw [if_pos ⟨hq, hl⟩,
        ih (acc ++ [q]) (by simp only [List.length_append, List.length_cons, List.length_nil]; omega)
          (List.Nodup.of_cons hnd)
          (by
            intro p hp hmem
            rcases List.mem_append.mp hmem with hin | hin
            · exact hdj p (List.mem_cons_of_mem q hp) hin
            · rw [List.mem_singleton] at hin
              subst hin
              exact (List.nodup_cons.mp hnd).1 hp)]
      simp only [List.length_append, List.length_cons, List.length_nil]
      omega
    · rw [if_neg (fun hc => Nat.not_lt.mpr hl hc.2),
        ih acc h5 (List.Nodup.of_cons hnd)
          (fun p hp => hdj p (List.mem_cons_of_mem q hp))]
      simp only [List.length_cons]
      omega

/-- One pass over the generic pool fills the question list to exactly 5. -/
lemma questionPass_length (acc : List Str) (h5 : acc.length ≤ 5)
    (hd : ∀ q ∈ genericQuestions, q ∉ acc) : (questionPass acc).length = 5 := by
  rw [questionPass, foldl_bounded_append_length genericQuestions acc h5 (by decide) hd,
    show genericQuestions.length = 5 from rfl]
  omega

/-- The `while` padding returns exactly 5 questions from any start of at
most 5 pool-disjoint questions. -/
lemma padQuestions_length (acc : List Str) (h5 : acc.length ≤ 5)
    (hd : ∀ q ∈ genericQuestions, q ∉ acc) : (padQuestions 6 acc).length = 5 := by
  have h6 : padQuestions 6 acc
      = if acc.length < 5 then padQuestions 5 (questionPass acc) else acc := rfl
  have h5u : padQuestions 5 (questionPass acc)
      = if (questionPass acc).length < 5 then
          padQuestions 4 (questionPass (questionPass acc))
        else questionPass acc := rfl
  rw [h6]
  rcases Nat.lt_or_ge acc.length 5 with hl | hl
  · rw [if_pos hl, h5u, questionPass_length acc h5 hd, if_neg (by omega)]
    exact questionPass_length acc h5 hd
  · rw [if_neg (Nat.not_lt.mpr hl)]
    omega

/-- Padding the empty question list yields exactly 5 entries. -/
lemma padQ_nil : (padQuestions 6 ([] : List Str)).length = 5 := by
  refine padQuestions_length _ (by simp) ?_
  intro q hq
  exact List.not_mem_nil q

/-- Padding fills this value-question shape to exactly 5 entries. -/
lemma padQ_h (r1 r2 : Str) :
    (padQuestions 6
      [sl "My HbA1c is " ++ r1,
       sl "What specific dietary changes would be most effective to lower my HbA1c from " ++ r2]).length = 5 := by
  refine padQuestions_length _ (by simp) ?_
  intro q hq
  simp only [genericQuestions, List.mem_cons, List.not_mem_nil, or_false] at hq
  rcases hq with rfl | rfl | rfl | rfl | rfl <;>
  · simp only [List.mem_cons, List.not_mem_nil, or_false, not_or]
    exact ⟨ne_of_take_ne _ _ _ 1 (by decide) (by decide), ne_of_take_ne _ _ _ 6 (by decide) (by decide)⟩

/-- Padding fills this value-question shape to exactly 5 entries. -/
lemma padQ_g (r3 r4 : Str) :
    (padQuestions 6
      [sl "My fasting glucose is " ++ r3,
       sl "Should I be concerned about my glucose level of " ++ r4]).length = 5 := by
  refine padQuestions_length _ (by simp) ?_
  intro q hq
  simp only [genericQuestions, List.mem_cons, List.not_mem_nil, or_false] at hq
  rcases hq with rfl | rfl | rfl | rfl | rfl <;>
  · simp only [List.mem_cons, List.not_mem_nil, or_false, not_or]
    exact ⟨ne_of_take_ne _ _ _ 1 (by decide) (by decide), ne_of_take_ne _ _ _ 13 (by decide) (by decide)⟩

/-- Padding fills this value-question shape to exactly 5 entries. -/
lemma padQ_b (r5 : Str) :
    (padQuestions 6
      [sl "My blood pressure is " ++ r5]).length = 5 := by
  refine padQuestions_length _ (by simp) ?_
  intro q hq
  simp only [genericQuestions, List.mem_cons, List.not_mem_nil, or_false] at hq
  rcases hq with rfl | rfl | rfl | rfl | rfl <;>
  · simp only [List.mem_cons, List.not_mem_nil, or_false, not_or]
    exact ne_of_take_ne _ _ _ 1 (by decide) (by decide)

/-- Padding fills this value-question shape to exactly 5 entries. -/
lemma padQ_hg (r1 r2 r3 r4 : Str) :
    (padQuestions 6
      [sl "My HbA1c is " ++ r1,
       sl "What specific dietary changes would be most effective to lower my HbA1c from " ++ r2,
       sl "My fasting glucose is " ++ r3,
       sl "Should I be concerned about my glucose level of " ++ r4]).length = 5 := by
  refine padQuestions_length _ (by simp) ?_
  intro q hq
  simp only [genericQuestions, List.mem_cons, List.not_mem_nil, or_false] at hq
  rcases hq with rfl | rfl | rfl | rfl | rfl <;>
  · simp only [List.mem_cons, List.not_mem_nil, or_false, not_or]
    exact ⟨ne_of_take_ne _ _ _ 1 (by decide) (by decide), ne_of_take_ne _ _ _ 6 (by decide) (by decide), ne_of_take_ne _ _ _ 1 (by decide) (by decide), ne_of_take_ne _ _ _ 13 (by decide) (by decide)⟩

/-- Padding fills this value-question shape to exactly 5 entries. -/
lemma padQ_hb (r1 r2 r5 : Str) :
    (padQuestions 6
      [sl "My HbA1c is " ++ r1,
       sl "What specific dietary changes would be most effective to lower my HbA1c from " ++ r2,
       sl "My blood pressure is " ++ r5]).length = 5 := by
  refine padQuestions_length _ (by simp) ?_
  intro q hq
  simp only [genericQuestions, List.mem_cons, List.not_mem_nil, or_false] at hq
  rcases hq with rfl | rfl | rfl | rfl | rfl <;>
  · simp only [List.mem_cons, List.not_mem_nil, or_false, not_or]
    exact ⟨ne_of_take_ne _ _ _ 1 (by decide) (by decide), ne_of_take_ne _ _ _ 6 (by decide) (by decide), ne_of_take_ne _ _ _ 1 (by decide) (by decide)⟩

/-- Padding fills this value-question shape to exactly 5 entries. -/
lemma padQ_gb (r3 r4 r5 : Str) :
    (padQuestions 6
      [sl "My fasting glucose is " ++ r3,
       sl "Should I be concerned about my glucose level of " ++ r4,
       sl "My blood pressure is " ++ r5]).length = 5 := by
  refine padQuestions_length _ (by simp) ?_
  intro q hq
  simp only [genericQuestions, List.mem_cons, List.not_mem_nil, or_false] at hq
  rcases hq with rfl | rfl | rfl | rfl | rfl <;>
  · simp only [List.mem_cons, List.not_mem_nil, or_false, not_or]
    exact ⟨ne_of_take_ne _ _ _ 1 (by decide) (by decide), ne_of_take_ne _ _ _ 13 (by decide) (by decide), ne_of_take_ne _ _ _ 1 (by decide) (by decide)⟩

/-- Padding fills this value-question shape to exactly 5 entries. -/
lemma padQ_hgb (r1 r2 r3 r4 r5 : Str) :
    (padQuestions 6
      [sl "My HbA1c is " ++ r1,
       sl "What specific dietary changes would be most effective to lower my HbA1c from " ++ r2,
       sl "My fasting glucose is " ++ r3,
       sl "Should I be concerned about my glucose level of " ++ r4,
       sl "My blood pressure is " ++ r5]).length = 5 := by
  refine padQuestions_length _ (by simp) ?_
  intro q hq
  simp only [genericQuestions, List.mem_cons, List.not_mem_nil, or_false] at hq
  rcases hq with rfl | rfl | rfl | rfl | rfl <;>
  · simp only [List.mem_cons, List.not_mem_nil, or_false, not_or]
    exact ⟨ne_of_take_ne _ _ _ 1 (by decide) (by decide), ne_of_take_ne _ _ _ 6 (by decide) (by decide), ne_of_take_ne _ _ _ 1 (by decide) (by decide), ne_of_take_ne _ _ _ 13 (by decide) (by decide), ne_of_take_ne _ _ _ 1 (by decide) (by decide)⟩

/-- Error propagation through `Except.bind`. -/
lemma ebind_err {A E B : Type} (e : E) (f : A → Except E B) :
    (Except.error e : Except E A).bind f = .error e := rfl

/-- `Except.bind` on a success applies the continuation. -/
lemma ebind_ok {A E B : Type} (x : A) (f : A → Except E B) :
    (Except.ok x : Except E A).bind f = f x := rfl

/-- Error propagation through `Except.map`. -/
lemma emap_err {A E B : Type} (e : E) (f : A → B) :
    (Except.error e : Except E A).map f = .error e := rfl

/-- `Except.map` on a success applies the function. -/
lemma emap_ok {A E B : Type} (x : A) (f : A → B) :
    (Except.ok x : Except E A).map f = .ok (f x) := rfl

/-- A successful hba1c question step either keeps the accumulator or
appends the two hba1c questions. -/
lemma questionsHba1c_shape (m : MetricSet) (acc q : List Str)
    (h : questionsHba1c m acc = .ok q) :
    q = acc ∨ ∃ r1 r2, q = acc ++
      [sl "My HbA1c is " ++ r1,
       sl "What specific dietary changes would be most effective to lower my HbA1c from "
         ++ r2] := by
  rcases h1 : truthy m.hba1c with _ | s
  · simp only [questionsHba1c, h1] at h
    exact Or.inl (Except.ok.inj h).symm
  · rcases hp : pyFloat? (dropPct s) with _ | v
    · simp only [questionsHba1c, h1, hp] at h
      exact Except.noConfusion h
    · simp only [questionsHba1c, h1, hp] at h
      split_ifs at h
      · exact Or.inr ⟨_, _, (Except.ok.inj h).symm⟩
      · exact Or.inr ⟨_, _, (Except.ok.inj h).symm⟩
      · exact Or.inl (Except.ok.inj h).symm

/-- A successful glucose question step either keeps the accumulator or
appends the two glucose questions. -/
lemma questionsGlucose_shape (m : MetricSet) (acc q : List Str)
    (h : questionsGlucose m acc = .ok q) :
    q = acc ∨ ∃ r3 r4, q = acc ++
      [sl "My fasting glucose is " ++ r3,
       sl "Should I be concerned about my glucose level of " ++ r4] := by
  rcases h2 : truthy m.glucose with _ | s
  · simp only [questionsGlucose, h2] at h
    exact Or.inl (Except.ok.inj h).symm
  · rcases hp : parse_int_tok s with _ | v
    · simp only [questionsGlucose, h2, hp] at h
      exact Except.noConfusion h
    · simp only [questionsGlucose, h2, hp] at h
      split_ifs at h
      · exact Or.inr ⟨_, _, (Except.ok.inj h).symm⟩
      · exact Or.inl (Except.ok.inj h).symm

/-- The blood-pressure question step keeps the accumulator or appends the
single blood-pressure question. -/
lemma questionsBp_shape (m : MetricSet) (acc : List Str) :
    questionsBp m acc = acc ∨
    ∃ r5, questionsBp m acc = acc ++ [sl "My blood pressure is " ++ r5] := by
  rcases h3 : truthy m.blood_pressure with _ | s
  · exact Or.inl (by simp only [questionsBp, h3])
  · exact Or.inr ⟨s ++ sl " - is this related to my blood sugar levels?",
      by simp only [questionsBp, h3, List.append_assoc]⟩

/-- Whatever value-specific questions accumulate, the generic padding
always returns exactly 5 questions. -/
lemma questionsOf_pad (m : MetricSet) (q : List Str) (h : questionsOf m = .ok q) :
    (padQuestions 6 q).length = 5 := by
  rcases hh : questionsHba1c m [] with e | q1
  · rw [questionsOf, hh, ebind_err, emap_err] at h
    exact Except.noConfusion h
  · rcases hg : questionsGlucose m q1 with e | q2
    · rw [questionsOf, hh, ebind_ok, hg, emap_err] at h
      exact Except.noConfusion h
    · rw [questionsOf, hh, ebind_ok, hg, emap_ok] at h
      have hq : q = questionsBp m q2 := (Except.ok.inj h).symm
      subst hq
      rcases questionsHba1c_shape m [] q1 hh with h1 | ⟨r1, r2, h1⟩
      · rcases questionsGlucose_shape m q1 q2 hg with h2 | ⟨r3, r4, h2⟩
        · rcases questionsBp_shape m q2 with h3 | ⟨r5, h3⟩
          · subst h1; subst h2; rw [h3]
            exact padQ_nil
          · subst h1; subst h2; rw [h3]
            simp only [List.nil_append]
            exact padQ_b _
        · rcases questionsBp_shape m q2 with h3 | ⟨r5, h3⟩
          · subst h1; subst h2; rw [h3]
            simp only [List.nil_append]
            exact padQ_g _ _
          · subst h1; subst h2; rw [h3]
            simp only [List.nil_append, List.cons_append]
            exact padQ_gb _ _ _
      · rcases questionsGlucose_shape m q1 q2 hg with h2 | ⟨r3, r4, h2⟩
        · rcases questionsBp_shape m q2 with h3 | ⟨r5, h3⟩
          · subst h1; subst h2; rw [h3]
            simp only [List.nil_append]
            exact padQ_h _ _
          · subst h1; subst h2; rw [h3]
            simp only [List.nil_append, List.cons_append]
            exact padQ_hb _ _ _
        · rcases questionsBp_shape m q2 with h3 | ⟨r5, h3⟩
          · subst h1; subst h2; rw [h3]
            simp only [List.nil_append, List.cons_append]
            exact padQ_hg _ _ _ _
          · subst h1; subst h2; rw [h3]
            simp only [List.nil_append, List.cons_append]
            exact padQ_hgb _ _ _ _ _

/-- On every successful run, the fallback analysis has exactly 5 doctor
questions and its recommendation count is 5 when hba1c or glucose is
present (truthily) and 2 otherwise. -/
lemma gen_fallback_shape (m : MetricSet) (tp : Str) (a : Analysis)
    (h : generate_fallback_analysis m tp = .ok a) :
    a.doctorQuestions.length = 5 ∧
    a.recommendations.length =
      if (truthy m.hba1c).isSome ∨ (truthy m.glucose).isSome then 5 else 2 := by
  rcases hf : findingsOf m with e | f
  · rw [generate_fallback_analysis, hf, ebind_err] at h
    exact Except.noConfusion h
  · rw [generate_fallback_analysis, hf, ebind_ok] at h
    rcases hk : keyFindingsOf m with e | k
    · rw [hk, ebind_err] at h
      exact Except.noConfusion h
    · rw [hk, ebind_ok] at h
      rcases hq : questionsOf m with e | q
      · rw [hq, ebind_err] at h
        exact Except.noConfusion h
      · rw [hq, ebind_ok] at h
        rcases hc : criticalOf m with e | c
        · rw [hc, emap_err] at h
          exact Except.noConfusion h
        · rw [hc, emap_ok] at h
          have ha : a = _ := (Except.ok.inj h).symm
          subst ha
          refine ⟨questionsOf_pad m q hq, ?_⟩
          show (recommendationsOf m).length = _
          rw [recommendationsOf]
          split_ifs
          · rfl
          · rfl

/-- **C8.** For every metrics mapping, including the empty one, a
successful run of `generate_fallback_analysis` returns a doctorQuestions
list with exactly 5 entries — the value-specific questions followed by
generic-pool entries, skipping duplicates, until length 5 — and the run on
the empty mapping does succeed. -/
theorem C8_doctor_questions_five :
    (∀ (m : MetricSet) (tp : Str) (a : Analysis),
      generate_fallback_analysis m tp = .ok a → a.doctorQuestions.length = 5) ∧
    ∃ a, generate_fallback_analysis emptyMetrics [] = .ok a := by
  constructor
  · intro m tp a h
    exact (gen_fallback_shape m tp a h).1
  · exact ⟨_, rfl⟩

/-- Witness for C8: on the empty metrics mapping the analysis is produced
and carries exactly 5 doctor questions. -/
theorem C8_doctor_questions_five_witness :
    ∃ a, generate_fallback_analysis emptyMetrics [] = .ok a ∧
      a.doctorQuestions.length = 5 := by
  obtain ⟨a, ha⟩ : ∃ a, generate_fallback_analysis emptyMetrics [] = .ok a := ⟨_, rfl⟩
  exact ⟨a, ha, C8_doctor_questions_five.1 emptyMetrics [] a ha⟩

/-- **C9 (amended).** The recommendations list of a successful
`generate_fallback_analysis` run has exactly 5 entries when hba1c or
glucose is present (truthily) in the metrics, and exactly 2 entries
otherwise — so "at least 5" fails on mappings without a diabetes
metric. -/
theorem C9_recommendations_amended :
    ∀ (m : MetricSet) (tp : Str) (a : Analysis),
      generate_fallback_analysis m tp = .ok a →
      a.recommendations.length =
        if (truthy m.hba1c).isSome ∨ (truthy m.glucose).isSome then 5 else 2 := by
  intro m tp a h
  exact (gen_fallback_shape m tp a h).2

/-- **C9 counterexample.** On the empty metrics mapping the fallback
analysis succeeds with exactly 2 recommendations, refuting "at least 5
entries for every metrics mapping". -/
theorem C9_recommendations_counterexample :
    (generate_fallback_analysis emptyMetrics []).map
      (fun a => a.recommendations.length) = .ok 2 ∧ ¬(5 ≤ 2) := by
  exact ⟨rfl, by decide⟩

/-- Witness for C9 (amended): with a glucose value present the analysis
carries exactly 5 recommendations. -/
theorem C9_recommendations_amended_witness :
    ∃ a, generate_fallback_analysis { glucose := some (sl "128 mg/dL") } [] = .ok a ∧
      a.recommendations.length = 5 := by
  obtain ⟨a, ha⟩ :
      ∃ a, generate_fallback_analysis { glucose := some (sl "128 mg/dL") } [] = .ok a :=
    ⟨_, rfl⟩
  refine ⟨a, ha, ?_⟩
  rw [C9_recommendations_amended { glucose := some (sl "128 mg/dL") } [] a ha,
    if_pos (Or.inr (by decide))]

/-- **C3 (code bug).** On `"Date: 2 JAN 2025"` the month-name date pattern
matches with group `"2 JAN 2025"`, no numeric format parses that substring,
and `extract_report_date` returns `none` — not the raw matched substring:
the `return date_str` fallback is dead code, because the inner
`except: continue` already swallows every `strptime` failure.  A numeric
date by contrast is returned in ISO form. -/
theorem C3_date_fallback_dead :
    (search dp2 (upperStr (sl "Date: 2 JAN 2025"))).map (fun r => r.caps.getD 0 [])
        = some (sl "2 JAN 2025") ∧
    extract_report_date (sl "Date: 2 JAN 2025") = none ∧
    extract_report_date (sl "Date: 12-01-2025") = some (sl "2025-01-12T00:00:00") := by
  refine ⟨by decide, by decide, by decide⟩

/-- `truthy` is the identity away from the empty string. -/
lemma truthy_of_ne_empty (o : Option Str) (h : o ≠ some []) : truthy o = o := by
  match o with
  | none => rfl
  | some [] => exact absurd rfl h
  | some (c :: t) => rfl

/-- The extractor never stores an empty hba1c value. -/
lemma extract_hba1c_ne (text : Str) :
    (extract_medical_metrics text).hba1c ≠ some [] := by
  show (firstSearch hba1cPatterns (upperStr text)).map
      (fun r => canonFloat (r.caps.getD 0 []) ++ ['%']) ≠ some []
  cases h : firstSearch hba1cPatterns (upperStr text) with
  | none => exact fun he => Option.noConfusion he
  | some r =>
    intro he
    have h2 : canonFloat (r.caps.getD 0 []) ++ ['%'] = [] := Option.some.inj he
    exact absurd (List.append_eq_nil.mp h2).2 (by decide)

/-- The extractor never stores an empty glucose value. -/
lemma extract_glucose_ne (text : Str) :
    (extract_medical_metrics text).glucose ≠ some [] := by
  show (firstSearch glucosePatterns (upperStr text)).map
      (fun r => natRepr (natOfDigits (r.caps.getD 0 [])) ++ sl " mg/dL") ≠ some []
  cases h : firstSearch glucosePatterns (upperStr text) with
  | none => exact fun he => Option.noConfusion he
  | some r =>
    intro he
    have h2 : natRepr (natOfDigits (r.caps.getD 0 [])) ++ sl " mg/dL" = [] :=
      Option.some.inj he
    exact absurd (List.append_eq_nil.mp h2).2 (by decide)

/-- **C6.** `classify_document_stub` reports a diabetes document exactly
when the extracted metrics contain hba1c or glucose, chooses
`documentType` by the fixed precedence chain (diabetes, then
discharge+summary, then prescription, then lab or report, else OTHER), and
in particular classifies a discharge summary containing a glucose value as
`DIABETES_LAB_REPORT`. -/
theorem C6_classifier_precedence (text : Str) :
    ((classify_document_stub text).isDiabetesReport = true ↔
      (extract_medical_metrics text).hba1c.isSome = true ∨
      (extract_medical_metrics text).glucose.isSome = true) ∧
    ((classify_document_stub text).documentType =
      if (classify_document_stub text).isDiabetesReport then sl "DIABETES_LAB_REPORT"
      else if containsStr (upperStr text) (sl "DISCHARGE")
          && containsStr (upperStr text) (sl "SUMMARY") then sl "DISCHARGE_SUMMARY"
      else if containsStr (upperStr text) (sl "PRESCRIPTION") then sl "PRESCRIPTION"
      else if containsStr (upperStr text) (sl "LAB")
          || containsStr (upperStr text) (sl "REPORT") then sl "LAB_REPORT"
      else sl "OTHER") ∧
    (classify_document_stub (sl "Discharge Summary. Glucose: 128 mg/dL")).documentType
        = sl "DIABETES_LAB_REPORT" ∧
    (classify_document_stub (sl "Discharge Summary. Glucose: 128 mg/dL")).isDiabetesReport
        = true := by
  refine ⟨?_, rfl, by decide, by decide⟩
  show ((truthy (extract_medical_metrics text).hba1c).isSome
      || (truthy (extract_medical_metrics text).glucose).isSome) = true ↔ _
  rw [truthy_of_ne_empty _ (extract_hba1c_ne text),
    truthy_of_ne_empty _ (extract_glucose_ne text), Bool.or_eq_true]

/-- Witness for C6: a prescription without metrics lands in the
`PRESCRIPTION` branch of the precedence chain. -/
theorem C6_classifier_precedence_witness :
    (classify_document_stub (sl "Prescription for metformin")).documentType
      = sl "PRESCRIPTION" := by
  have h := (C6_classifier_precedence (sl "Prescription for metformin")).2.1
  rw [h]
  decide

/-! ## Regex semantics: language membership and capture soundness (C2) -/

/-- Declarative language membership for the regex AST. -/
inductive Lang : RE → Str → Prop where
  | eps : Lang .eps []
  | ch (c : Char) : Lang (.ch c) [c]
  | cls (k : CKind) (c : Char) : k.holds c = true → Lang (.cls k) [c]
  | seq {a b : RE} {s t : Str} : Lang a s → Lang b t → Lang (.seq a b) (s ++ t)
  | altl {a : RE} (b : RE) {s : Str} : Lang a s → Lang (.alt a b) s
  | altr (a : RE) {b : RE} {s : Str} : Lang b s → Lang (.alt a b) s
  | star_nil (g : Bool) (a : RE) : Lang (.star g a) []
  | star_cons {g : Bool} {a : RE} {s t : Str} :
      Lang a s → Lang (.star g a) t → Lang (.star g a) (s ++ t)
  | grp {a : RE} {s : Str} : Lang a s → Lang (.grp a) s

/-- A regex with no capture group. -/
def grpFree : RE → Bool
  | .eps => true
  | .ch _ => true
  | .cls _ => true
  | .seq a b => grpFree a && grpFree b
  | .alt a b => grpFree a && grpFree b
  | .star _ a => grpFree a
  | .grp _ => false

/-- Capture groups appear only in concatenation positions (not under an
alternation or a repetition), as in every source pattern. -/
def linGrps : RE → Bool
  | .eps => true
  | .ch _ => true
  | .cls _ => true
  | .seq a b => linGrps a && linGrps b
  | .alt a b => grpFree a && grpFree b
  | .star _ a => grpFree a
  | .grp a => linGrps a

/-- The capture-group bodies of a regex, in capture order. -/
def grpsOf : RE → List RE
  | .eps => []
  | .ch _ => []
  | .cls _ => []
  | .seq a b => grpsOf a ++ grpsOf b
  | .alt _ _ => []
  | .star _ _ => []
  | .grp a => a :: grpsOf a

/-- A group-free regex is trivially group-linear. -/
lemma grpFree_linGrps {r : RE} (h : grpFree r = true) : linGrps r = true := by
  induction r <;> simp_all [grpFree, linGrps]

/-- A group-free regex has no capture-group bodies. -/
lemma grpFree_grpsOf {r : RE} (h : grpFree r = true) : grpsOf r = [] := by
  induction r <;> simp_all [grpFree, grpsOf]

/-- Soundness of the repetition matcher: every candidate splits the input,
consumes a star-language prefix and captures nothing (group-free body). -/
lemma mstarF_sound (a : RE) (g : Bool)
    (sound : ∀ s res, res ∈ matchRE a s →
      res.consumed ++ res.rest = s ∧ Lang a res.consumed ∧ res.caps = []) :
    ∀ (fuel : ℕ) (s : Str) (res : MRes), res ∈ mstarF fuel (matchRE a) g s →
      res.consumed ++ res.rest = s ∧ Lang (.star g a) res.consumed ∧
      res.caps = [] := by
  intro fuel
  induction fuel with
  | zero =>
    intro s res h
    simp only [mstarF, List.mem_singleton] at h
    subst h
    exact ⟨rfl, .star_nil g a, rfl⟩
  | succ f ihf =>
    intro s res h
    have hbase : res = ⟨[], s, []⟩ ∨
        res ∈ (matchRE a s).flatMap fun r1 =>
          if r1.rest.length < s.length then
            (mstarF f (matchRE a) g r1.rest).map fun r2 =>
              ⟨r1.consumed ++ r2.consumed, r2.rest, r1.caps ++ r2.caps⟩
          else [] := by
      simp only [mstarF] at h
      cases g
      · simpa using h
      · rcases List.mem_append.mp h with h | h
        · exact Or.inr h
        · exact Or.inl (List.mem_singleton.mp h)
    rcases hbase with h | h
    · subst h
      exact ⟨rfl, .star_nil g a, rfl⟩
    · simp only [List.mem_flatMap] at h
      obtain ⟨r1, h1, h2⟩ := h
      by_cases hlt : r1.rest.length < s.length
      · rw [if_pos hlt] at h2
        simp only [List.mem_map] at h2
        obtain ⟨r2, h3, heq⟩ := h2
        obtain ⟨e1, l1, c1⟩ := sound s r1 h1
        obtain ⟨e2, l2, c2⟩ := ihf r1.rest r2 h3
        subst heq
        refine ⟨?_, .star_cons l1 l2, ?_⟩
        · simp only [List.append_assoc, e2, e1]
        · simp [c1, c2]
      · rw [if_neg hlt] at h2
        exact absurd h2 (List.not_mem_nil res)

/-- Soundness of the matcher: every candidate splits the input, consumes a
string of the regex language, and its captures are matched by the group
bodies in order. -/
lemma matchRE_sound : ∀ (r : RE), linGrps r = true → ∀ (s : Str) (res : MRes),
    res ∈ matchRE r s →
    res.consumed ++ res.rest = s ∧ Lang r res.consumed ∧
    List.Forall₂ Lang (grpsOf r) res.caps := by
  intro r
  induction r with
  | eps =>
    intro _ s res h
    simp only [matchRE, List.mem_singleton] at h
    subst h
    exact ⟨rfl, .eps, List.Forall₂.nil⟩
  | ch c =>
    intro _ s res h
    cases s with
    | nil => exact absurd h (List.not_mem_nil res)
    | cons x xs =>
      simp only [matchRE] at h
      by_cases hx : x = c
      · rw [if_pos hx] at h
        rw [List.mem_singleton] at h
        subst h
        subst hx
        exact ⟨rfl, .ch x, List.Forall₂.nil⟩
      · rw [if_neg hx] at h
        exact absurd h (List.not_mem_nil res)
  | cls k =>
    intro _ s res h
    cases s with
    | nil => exact absurd h (List.not_mem_nil res)
    | cons x xs =>
      simp only [matchRE] at h
      by_cases hx : k.holds x = true
      · rw [if_pos hx] at h
        rw [List.mem_singleton] at h
        subst h
        exact ⟨rfl, .cls k x hx, List.Forall₂.nil⟩
      · rw [if_neg hx] at h
        exact absurd h (List.not_mem_nil res)
  | seq a b iha ihb =>
    intro hw s res h
    rw [linGrps, Bool.and_eq_true] at hw
    simp only [matchRE, List.mem_flatMap, List.mem_map] at h
    obtain ⟨r1, h1, r2, h2, heq⟩ := h
    obtain ⟨e1, l1, f1⟩ := iha hw.1 s r1 h1
    obtain ⟨e2, l2, f2⟩ := ihb hw.2 r1.rest r2 h2
    subst heq
    refine ⟨?_, .seq l1 l2, List.rel_append f1 f2⟩
    simp only [List.append_assoc, e2, e1]
  | alt a b iha ihb =>
    intro hw s res h
    rw [linGrps, Bool.and_eq_true] at hw
    rcases List.mem_append.mp h with h | h
    · obtain ⟨e, l, f⟩ := iha (grpFree_linGrps hw.1) s res h
      rw [grpFree_grpsOf hw.1, List.forall₂_nil_left_iff] at f
      rw [f]
      exact ⟨e, .altl b l, List.Forall₂.nil⟩
    · obtain ⟨e, l, f⟩ := ihb (grpFree_linGrps hw.2) s res h
      rw [grpFree_grpsOf hw.2, List.forall₂_nil_left_iff] at f
      rw [f]
      exact ⟨e, .altr a l, List.Forall₂.nil⟩
  | star g a ih =>
    intro hw s res h
    rw [linGrps] at hw
    have sound : ∀ s1 r1, r1 ∈ matchRE a s1 →
        r1.consumed ++ r1.rest = s1 ∧ Lang a r1.consumed ∧ r1.caps = [] := by
      intro s1 r1 h1
      obtain ⟨e, l, f⟩ := ih (grpFree_linGrps hw) s1 r1 h1
      rw [grpFree_grpsOf hw, List.forall₂_nil_left_iff] at f
      exact ⟨e, l, f⟩
    obtain ⟨e, l, c⟩ := mstarF_sound a g sound s.length s res h
    rw [c]
    exact ⟨e, l, List.Forall₂.nil⟩
  | grp a ih =>
    intro hw s res h
    rw [linGrps] at hw
    simp only [matchRE, List.mem_map] at h
    obtain ⟨r1, h1, heq⟩ := h
    obtain ⟨e, l, f⟩ := ih hw s r1 h1
    subst heq
    exact ⟨e, .grp l, List.Forall₂.cons l f⟩

/-- Every `search` hit is a matcher candidate on some suffix. -/
lemma search_sound (r : RE) : ∀ (s : Str) (res : MRes), search r s = some res →
    ∃ t : Str, res ∈ matchRE r t := by
  intro s
  induction s with
  | nil =>
    intro res h
    rw [search] at h
    cases hm : matchRE r [] with
    | nil =>
      rw [hm] at h
      exact Option.noConfusion h
    | cons a l =>
      rw [hm] at h
      have h2 : a = res := Option.some.inj h
      subst h2
      exact ⟨[], by rw [hm]; exact List.mem_cons_self a l⟩
  | cons x xs ih =>
    intro res h
    rw [search] at h
    cases hm : matchRE r (x :: xs) with
    | nil =>
      rw [hm] at h
      exact ih res h
    | cons a l =>
      rw [hm] at h
      have h2 : a = res := Option.some.inj h
      subst h2
      exact ⟨x :: xs, by rw [hm]; exact List.mem_cons_self a l⟩

/-- Every `firstSearch` hit is a `search` hit of one of the patterns. -/
lemma firstSearch_sound : ∀ (ps : List RE) (u : Str) (res : MRes),
    firstSearch ps u = some res → ∃ p ∈ ps, search p u = some res := by
  intro ps
  induction ps with
  | nil => intro u res h; exact absurd h (by simp [firstSearch])
  | cons p ps ih =>
    intro u res h
    rw [firstSearch] at h
    cases hs : search p u with
    | some r =>
      rw [hs] at h
      have h2 : r = res := Option.some.inj h
      subst h2
      exact ⟨p, List.mem_cons_self p ps, hs⟩
    | none =>
      rw [hs] at h
      obtain ⟨q, hq, hsq⟩ := ih u res h
      exact ⟨q, List.mem_cons_of_mem p hq, hsq⟩

/-- Eliminator for star-language membership. -/
lemma Lang_star_elim (g : Bool) (a : RE) (P : Str → Prop) (hnil : P [])
    (hcons : ∀ u v, Lang a u → P v → P (u ++ v)) :
    ∀ (rr : RE) (s : Str), Lang rr s → rr = RE.star g a → P s := by
  intro rr s h
  induction h with
  | eps => exact fun he => RE.noConfusion he
  | ch c => exact fun he => RE.noConfusion he
  | cls k c hc => exact fun he => RE.noConfusion he
  | seq l1 l2 ih1 ih2 => exact fun he => RE.noConfusion he
  | altl b l ih => exact fun he => RE.noConfusion he
  | altr b l ih => exact fun he => RE.noConfusion he
  | grp l ih => exact fun he => RE.noConfusion he
  | star_nil g2 a2 => exact fun _ => hnil
  | star_cons l1 l2 ih1 ih2 =>
    intro he
    injection he with hg ha
    subst hg
    subst ha
    exact hcons _ _ l1 (ih2 rfl)

/-- A `\d` match is one digit. -/
lemma Lang_rdig {s : Str} (h : Lang rdig s) :
    ∃ c, s = [c] ∧ isDig c = true := by
  have h2 : Lang (RE.cls (.rng '0' '9')) s := h
  cases h2 with
  | cls k c hc => exact ⟨c, rfl, hc⟩

/-- A `\d*` match is all digits. -/
lemma Lang_star_dig {s : Str} (h : Lang (RE.star true rdig) s) :
    ∀ c ∈ s, isDig c = true := by
  refine Lang_star_elim true rdig (fun t => ∀ c ∈ t, isDig c = true)
    (by simp) ?_ _ s h rfl
  intro u v hu hv x hx
  obtain ⟨c, rfl, hc⟩ := Lang_rdig hu
  rcases List.mem_append.mp hx with hx | hx
  · rw [List.mem_singleton] at hx
    rw [hx]
    exact hc
  · exact hv x hx

/-- A `\d+` (the `rintG` capture body) match is nonempty and all digits. -/
lemma Lang_rintG {s : Str} (h : Lang rintG s) :
    s ≠ [] ∧ ∀ c ∈ s, isDig c = true := by
  have h2 : Lang (RE.seq rdig (RE.star true rdig)) s := h
  cases h2 with
  | seq l1 l2 =>
    obtain ⟨c, rfl, hc⟩ := Lang_rdig l1
    refine ⟨by simp, ?_⟩
    intro x hx
    rcases List.mem_append.mp hx with hx | hx
    · rw [List.mem_singleton] at hx
      rw [hx]
      exact hc
    · exact Lang_star_dig l2 x hx

/-- A `\d{2,3}` (the `rdig23` capture body) match is nonempty and all
digits. -/
lemma Lang_rdig23 {s : Str} (h : Lang rdig23 s) :
    s ≠ [] ∧ ∀ c ∈ s, isDig c = true := by
  have h2 : Lang (RE.seq rdig (RE.seq rdig (RE.seq (ropt rdig) RE.eps))) s := h
  cases h2 with
  | seq l1 l2 =>
    obtain ⟨c, rfl, hc⟩ := Lang_rdig l1
    cases l2 with
    | seq l3 l4 =>
      obtain ⟨c2, rfl, hc2⟩ := Lang_rdig l3
      cases l4 with
      | seq l5 l6 =>
        have h6 : Lang RE.eps _ := l6
        cases h6
        have h5 : Lang (RE.alt rdig RE.eps) _ := l5
        refine ⟨by simp, ?_⟩
        intro x hx
        rcases List.mem_append.mp hx with hx1 | hx1
        · rw [List.mem_singleton] at hx1
          rw [hx1]
          exact hc
        · rcases List.mem_append.mp hx1 with hx2 | hx2
          · rw [List.mem_singleton] at hx2
            rw [hx2]
            exact hc2
          · rcases List.mem_append.mp hx2 with hx3 | hx3
            · cases h5 with
              | altl b l =>
                obtain ⟨c3, he, hc3⟩ := Lang_rdig l
                rw [he] at hx3
                rw [List.mem_singleton] at hx3
                rw [hx3]
                exact hc3
              | altr b l =>
                cases l
                exact absurd hx3 (List.not_mem_nil x)
            · exact absurd hx3 (List.not_mem_nil x)

/-- A `\d+\.?\d*` (the `rfloatG` capture body) match is either a nonempty
digit string or `digits.digits` with a nonempty integer part. -/
lemma Lang_rfloatG {s : Str} (h : Lang rfloatG s) :
    (s ≠ [] ∧ ∀ c ∈ s, isDig c = true) ∨
    (∃ a b, s = a ++ '.' :: b ∧ a ≠ [] ∧ (∀ c ∈ a, isDig c = true) ∧
      (∀ c ∈ b, isDig c = true)) := by
  have h2 : Lang (RE.seq rintG
      (RE.seq (RE.alt (RE.ch '.') RE.eps) (RE.seq (RE.star true rdig) RE.eps))) s := h
  cases h2 with
  | seq l1 l2 =>
    obtain ⟨hne, hdig⟩ := Lang_rintG l1
    cases l2 with
    | seq l3 l4 =>
      cases l4 with
      | seq l5 l6 =>
        cases l6
        have ht := Lang_star_dig l5
        cases l3 with
        | altl b l =>
          cases l
          refine Or.inr ⟨_, _, ?_, hne, hdig, ht⟩
          simp
        | altr b l =>
          cases l
          refine Or.inl ⟨?_, ?_⟩
          · simp [hne]
          · intro x hx
            simp only [List.nil_append, List.append_nil, List.mem_append] at hx
            rcases hx with hx | hx
            · exact hdig x hx
            · exact ht x hx

/-- `dropPct` is the identity on percent-free strings. -/
lemma dropPct_eq_self (x : Str) (h : ∀ c ∈ x, c ≠ '%') : dropPct x = x := by
  rw [dropPct, List.filter_eq_self]
  intro a ha
  simp [h a ha]

/-- `dropPct` strips exactly the trailing percent sign. -/
lemma dropPct_pct (x : Str) (h : ∀ c ∈ x, c ≠ '%') : dropPct (x ++ ['%']) = x := by
  have h1 : x.filter (fun c => !(c = '%')) = x := dropPct_eq_self x h
  rw [dropPct, List.filter_append, h1]
  simp

/-- Members of `dropWhile` come from the original list. -/
lemma mem_of_dropWhile {p : Char → Bool} {l : Str} {c : Char}
    (h : c ∈ l.dropWhile p) : c ∈ l :=
  List.Sublist.subset (List.dropWhile_sublist p) h

/-- The evaluation of `canonFloat` on a pure digit string. -/
lemma canonFloat_digits (g : Str) (hdig : ∀ c ∈ g, isDig c = true) :
    canonFloat g =
      (if g.dropWhile (fun c => c = '0') = [] then ['0']
       else g.dropWhile (fun c => c = '0')) ++ '.' :: ['0'] := by
  simp only [canonFloat, takeDigits_all g hdig, List.head?_nil, List.reverse_nil,
    List.dropWhile_nil, reduceCtorEq, if_false, if_true]

/-- The evaluation of `canonFloat` on `digits.digits`. -/
lemma canonFloat_point (a b : Str) (ha : ∀ c ∈ a, isDig c = true)
    (hb : ∀ c ∈ b, isDig c = true) :
    canonFloat (a ++ '.' :: b) =
      (if a.dropWhile (fun c => c = '0') = [] then ['0']
       else a.dropWhile (fun c => c = '0')) ++ '.' ::
      (if (b.reverse.dropWhile (fun c => c = '0')).reverse = [] then ['0']
       else (b.reverse.dropWhile (fun c => c = '0')).reverse) := by
  have htd : takeDigits (a ++ '.' :: b) = (a, '.' :: b) :=
    takeDigits_exact a ('.' :: b) ha
      (by intro c hc; rw [List.head?_cons, Option.some_inj] at hc; subst hc; rfl)
  simp only [canonFloat, htd, List.head?_cons, if_pos rfl, List.tail_cons,
    takeDigits_all b hb, if_true]

/-- The evaluation of `litVal` on a pure digit string. -/
lemma litVal_digits (g : Str) (hdig : ∀ c ∈ g, isDig c = true) :
    litVal g = (natOfDigits g : ℚ) := by
  simp only [litVal, takeDigits_all g hdig, List.head?_nil, reduceCtorEq, if_false]
  simp [natOfDigits]


/-- The evaluation of `litVal` on `digits.digits`. -/
lemma litVal_point (a b : Str) (ha : ∀ c ∈ a, isDig c = true)
    (hb : ∀ c ∈ b, isDig c = true) :
    litVal (a ++ '.' :: b) = (natOfDigits a : ℚ) +
      (natOfDigits b : ℚ) / 10 ^ b.length := by
  have htd : takeDigits (a ++ '.' :: b) = (a, '.' :: b) :=
    takeDigits_exact a ('.' :: b) ha
      (by intro c hc; rw [List.head?_cons, Option.some_inj] at hc; subst hc; rfl)
  simp only [litVal, htd, List.head?_cons, if_pos rfl, List.tail_cons,
    takeDigits_all b hb, if_true]

/-- The value of the canonical integer-part rendering. -/
lemma intpart_val (a : Str) :
    (natOfDigits (if a.dropWhile (fun c => c = '0') = [] then ['0']
      else a.dropWhile (fun c => c = '0')) : ℚ) = (natOfDigits a : ℚ) := by
  by_cases h : a.dropWhile (fun c => c = '0') = []
  · rw [if_pos h]
    have hz : ∀ c ∈ a, c = '0' := by
      intro c hc
      have := List.dropWhile_eq_nil_iff.mp h c hc
      simpa using this
    rw [natOfDigits_zeros a hz]
    norm_num [natOfDigits, digVal]
    decide
  · rw [if_neg h, natOfDigits_dropZeros]

/-- The value of the canonical fraction-part rendering. -/
lemma fracpart_val (b : Str) :
    ((natOfDigits (if (b.reverse.dropWhile (fun c => c = '0')).reverse = [] then ['0']
        else (b.reverse.dropWhile (fun c => c = '0')).reverse) : ℚ) /
      10 ^ (if (b.reverse.dropWhile (fun c => c = '0')).reverse = [] then ['0']
        else (b.reverse.dropWhile (fun c => c = '0')).reverse).length) =
    (natOfDigits b : ℚ) / 10 ^ b.length := by
  by_cases h : (b.reverse.dropWhile (fun c => c = '0')).reverse = []
  · rw [if_pos h]
    have hf := frac_dropTrailZeros b
    rw [h] at hf
    rw [← hf]
    norm_num [natOfDigits, digVal]
    decide
  · rw [if_neg h]
    exact frac_dropTrailZeros b

/-- The canonical HbA1c value string `canonFloat g ++ "%"` parses back to
the exact matched value `litVal g`. -/
lemma parse_hba1c_canon (g : Str) (h : Lang rfloatG g) :
    parse_hba1c (canonFloat g ++ ['%']) = some (litVal g) := by
  have hdot : isDig '.' = false := by decide
  have hpct : isDig '%' = false := by decide
  rcases Lang_rfloatG h with ⟨hne, hdig⟩ | ⟨a, b, rfl, hne, ha, hb⟩
  · rw [canonFloat_digits g hdig, litVal_digits g hdig, parse_hba1c]
    have hipdig : ∀ c ∈ (if g.dropWhile (fun c => c = '0') = [] then ['0']
        else g.dropWhile (fun c => c = '0')), isDig c = true := by
      by_cases hh : g.dropWhile (fun c => c = '0') = []
      · rw [if_pos hh]
        intro c hc
        rw [List.mem_singleton] at hc
        subst hc
        decide
      · rw [if_neg hh]
        intro c hc
        exact hdig c (mem_of_dropWhile hc)
    have hipne : (if g.dropWhile (fun c => c = '0') = [] then ['0']
        else g.dropWhile (fun c => c = '0')) ≠ [] := by
      by_cases hh : g.dropWhile (fun c => c = '0') = []
      · rw [if_pos hh]
        simp
      · rw [if_neg hh]
        exact hh
    rw [dropPct_pct _ (by
      intro c hc
      rcases List.mem_append.mp hc with hc | hc
      · exact isDig_ne (hipdig c hc) hpct
      · rw [List.mem_cons] at hc
        rcases hc with hc | hc
        · subst hc; decide
        · rw [List.mem_singleton] at hc; subst hc; decide)]
    rw [pyFloat?_point _ ['0'] hipdig hipne
      (by intro c hc; rw [List.mem_singleton] at hc; subst hc; decide)]
    rw [intpart_val]
    norm_num [natOfDigits, digVal]
    decide
  · rw [canonFloat_point a b ha hb, litVal_point a b ha hb, parse_hba1c]
    have hipdig : ∀ c ∈ (if a.dropWhile (fun c => c = '0') = [] then ['0']
        else a.dropWhile (fun c => c = '0')), isDig c = true := by
      by_cases hh : a.dropWhile (fun c => c = '0') = []
      · rw [if_pos hh]
        intro c hc
        rw [List.mem_singleton] at hc
        subst hc
        decide
      · rw [if_neg hh]
        intro c hc
        exact ha c (mem_of_dropWhile hc)
    have hipne : (if a.dropWhile (fun c => c = '0') = [] then ['0']
        else a.dropWhile (fun c => c = '0')) ≠ [] := by
      by_cases hh : a.dropWhile (fun c => c = '0') = []
      · rw [if_pos hh]
        simp
      · rw [if_neg hh]
        exact hh
    have hfpdig : ∀ c ∈ (if (b.reverse.dropWhile (fun c => c = '0')).reverse = []
        then ['0'] else (b.reverse.dropWhile (fun c => c = '0')).reverse),
        isDig c = true := by
      by_cases hh : (b.reverse.dropWhile (fun c => c = '0')).reverse = []
      · rw [if_pos hh]
        intro c hc
        rw [List.mem_singleton] at hc
        subst hc
        decide
      · rw [if_neg hh]
        intro c hc
        rw [List.mem_reverse] at hc
        exact hb c (List.mem_reverse.mp (mem_of_dropWhile hc))
    rw [dropPct_pct _ (by
      intro c hc
      rcases List.mem_append.mp hc with hc | hc
      · exact isDig_ne (hipdig c hc) hpct
      · rw [List.mem_cons] at hc
        rcases hc with hc | hc
        · subst hc; decide
        · exact isDig_ne (hfpdig c hc) hpct)]
    rw [pyFloat?_point _ _ hipdig hipne hfpdig]
    rw [intpart_val, Option.some_inj]
    congr 1
    exact fracpart_val b

/-- Both glucose consumers re-parse the canonical `"<int> mg/dL"` value. -/
lemma parse_glucose_val (n : ℕ) :
    parse_int_tok (natRepr n ++ sl " mg/dL") = some (n : ℤ) ∧
    parse_float_tok (natRepr n ++ sl " mg/dL") = some (n : ℚ) := by
  have he : natRepr n ++ sl " mg/dL" = natRepr n ++ ' ' :: sl "mg/dL" := rfl
  rw [he]
  constructor
  · rw [parse_int_tok_digits (natRepr n) (sl "mg/dL") (natRepr_digits n)
      (natRepr_ne_nil n), natOfDigits_natRepr]
  · rw [parse_float_tok_digits (natRepr n) (sl "mg/dL") (natRepr_digits n)
      (natRepr_ne_nil n), natOfDigits_natRepr]

/-- The cholesterol consumer re-parses the raw `"<int> mg/dL"` value. -/
lemma parse_chol_val (g : Str) (hg : ∀ c ∈ g, isDig c = true) (hne : g ≠ []) :
    parse_int_tok (g ++ sl " mg/dL") = some ((natOfDigits g : ℤ)) := by
  have he : g ++ sl " mg/dL" = g ++ ' ' :: sl "mg/dL" := rfl
  rw [he]
  exact parse_int_tok_digits g (sl "mg/dL") hg hne

/-- Both blood-pressure consumers re-parse the raw
`"<sys>/<dia> mmHg"` value. -/
lemma parse_bp_val (g1 g2 : Str) (h1 : ∀ c ∈ g1, isDig c = true) (hne1 : g1 ≠ [])
    (h2 : ∀ c ∈ g2, isDig c = true) (hne2 : g2 ≠ []) :
    parse_bp (g1 ++ '/' :: (g2 ++ sl " mmHg")) =
      some ((natOfDigits g1 : ℤ), (natOfDigits g2 : ℤ)) ∧
    parse_bp_sys (g1 ++ '/' :: (g2 ++ sl " mmHg")) =
      some ((natOfDigits g1 : ℤ)) := by
  have hsl : ∀ c ∈ sl " mmHg", c ≠ '/' := by decide
  have hsplit : splitOnCh '/' (g1 ++ '/' :: (g2 ++ sl " mmHg"))
      = [g1, g2 ++ sl " mmHg"] := by
    rw [splitOnCh_append '/' g1 _ (fun c hc => isDig_ne (h1 c hc) (by decide)),
      splitOnCh_no_sep '/' _ (by
        intro c hc
        rcases List.mem_append.mp hc with hc | hc
        · exact isDig_ne (h2 c hc) (by decide)
        · exact hsl c hc)]
  have hp1 : parse_int_tok (g2 ++ sl " mmHg") = some ((natOfDigits g2 : ℤ)) := by
    have he : g2 ++ sl " mmHg" = g2 ++ ' ' :: sl "mmHg" := rfl
    rw [he]
    exact parse_int_tok_digits g2 (sl "mmHg") h2 hne2
  constructor
  · rw [parse_bp, hsplit]
    show (pyInt? g1).bind (fun sy =>
      (parse_int_tok (g2 ++ sl " mmHg")).map fun di => (sy, di)) = _
    rw [pyInt?_digits g1 h1 hne1, hp1]
    rfl
  · rw [parse_bp_sys, hsplit]
    show pyInt? g1 = _
    rw [pyInt?_digits g1 h1 hne1]

/-- Every hba1c pattern is group-linear with the single float capture. -/
lemma hba1cPatterns_grps :
    ∀ p ∈ hba1cPatterns, linGrps p = true ∧ grpsOf p = [rfloatG] := by decide

/-- Every glucose pattern is group-linear with the single integer capture. -/
lemma glucosePatterns_grps :
    ∀ p ∈ glucosePatterns, linGrps p = true ∧ grpsOf p = [rintG] := by decide

/-- The blood-pressure pattern is group-linear with its two captures. -/
lemma bpPattern_grps :
    linGrps bpPattern = true ∧ grpsOf bpPattern = [rdig23, rdig23] := by decide

/-- Every cholesterol pattern is group-linear with the single integer
capture. -/
lemma cholesterolPatterns_grps :
    ∀ p ∈ cholesterolPatterns, linGrps p = true ∧ grpsOf p = [rintG] := by decide

/-- The single capture of a one-group pattern hit, with its language. -/
lemma search_one_group (p : RE) (u : Str) (r : MRes) (b : RE)
    (hw : linGrps p = true) (hg : grpsOf p = [b])
    (hs : search p u = some r) : ∃ g, r.caps = [g] ∧ Lang b g := by
  obtain ⟨t, hm⟩ := search_sound p u r hs
  obtain ⟨e, l, f⟩ := matchRE_sound p hw t r hm
  rw [hg] at f
  obtain ⟨g, caps2, hg1, f2, hcaps⟩ := List.forall₂_cons_left_iff.mp f
  rw [List.forall₂_nil_left_iff] at f2
  subst f2
  exact ⟨g, hcaps, hg1⟩

/-- The two captures of a two-group pattern hit, with their languages. -/
lemma search_two_groups (p : RE) (u : Str) (r : MRes) (b1 b2 : RE)
    (hw : linGrps p = true) (hg : grpsOf p = [b1, b2])
    (hs : search p u = some r) :
    ∃ g1 g2, r.caps = [g1, g2] ∧ Lang b1 g1 ∧ Lang b2 g2 := by
  obtain ⟨t, hm⟩ := search_sound p u r hs
  obtain ⟨e, l, f⟩ := matchRE_sound p hw t r hm
  rw [hg] at f
  obtain ⟨g1, caps2, hg1, f2, hcaps⟩ := List.forall₂_cons_left_iff.mp f
  obtain ⟨g2, caps3, hg2, f3, hcaps2⟩ := List.forall₂_cons_left_iff.mp f2
  rw [List.forall₂_nil_left_iff] at f3
  subst f3
  subst hcaps2
  exact ⟨g1, g2, hcaps, hg1, hg2⟩

/-- **C2.** Every value string the extractor stores for hba1c, glucose,
blood pressure and cholesterol is in its canonical format and is
re-parseable by both consumers (the severity assessor's parse and the trend
comparator's parse), recovering exactly the numeric component(s) the
extractor matched — so the per-metric exception branches are unreachable on
extractor output. -/
theorem C2_value_roundtrip (text : Str) :
    (∀ s, (extract_medical_metrics text).hba1c = some s →
      ∃ g, s = canonFloat g ++ ['%'] ∧ parse_hba1c s = some (litVal g)) ∧
    (∀ s, (extract_medical_metrics text).glucose = some s →
      ∃ n : ℕ, s = natRepr n ++ sl " mg/dL" ∧
        parse_int_tok s = some (n : ℤ) ∧ parse_float_tok s = some (n : ℚ)) ∧
    (∀ s, (extract_medical_metrics text).blood_pressure = some s →
      ∃ g1 g2, s = g1 ++ '/' :: (g2 ++ sl " mmHg") ∧
        parse_bp s = some ((natOfDigits g1 : ℤ), (natOfDigits g2 : ℤ)) ∧
        parse_bp_sys s = some ((natOfDigits g1 : ℤ))) ∧
    (∀ s, (extract_medical_metrics text).cholesterol = some s →
      ∃ g, s = g ++ sl " mg/dL" ∧
        parse_int_tok s = some ((natOfDigits g : ℤ))) := by
  refine ⟨?_, ?_, ?_, ?_⟩
  · intro s hs
    have hs2 : (firstSearch hba1cPatterns (upperStr text)).map
        (fun r => canonFloat (r.caps.getD 0 []) ++ ['%']) = some s := hs
    cases hfs : firstSearch hba1cPatterns (upperStr text) with
    | none =>
      rw [hfs] at hs2
      exact absurd hs2 (by simp)
    | some r =>
      rw [hfs] at hs2
      have hsv : canonFloat (r.caps.getD 0 []) ++ ['%'] = s := Option.some.inj hs2
      obtain ⟨p, hp, hsearch⟩ := firstSearch_sound _ _ _ hfs
      obtain ⟨hw, hg⟩ := hba1cPatterns_grps p hp
      obtain ⟨g, hcaps, hlang⟩ := search_one_group p _ r rfloatG hw hg hsearch
      rw [hcaps] at hsv
      refine ⟨g, hsv.symm, ?_⟩
      rw [← hsv]
      exact parse_hba1c_canon g hlang
  · intro s hs
    have hs2 : (firstSearch glucosePatterns (upperStr text)).map
        (fun r => natRepr (natOfDigits (r.caps.getD 0 [])) ++ sl " mg/dL")
        = some s := hs
    cases hfs : firstSearch glucosePatterns (upperStr text) with
    | none =>
      rw [hfs] at hs2
      exact absurd hs2 (by simp)
    | some r =>
      rw [hfs] at hs2
      have hsv : natRepr (natOfDigits (r.caps.getD 0 [])) ++ sl " mg/dL" = s :=
        Option.some.inj hs2
      obtain ⟨p, hp, hsearch⟩ := firstSearch_sound _ _ _ hfs
      obtain ⟨hw, hg⟩ := glucosePatterns_grps p hp
      obtain ⟨g, hcaps, hlang⟩ := search_one_group p _ r rintG hw hg hsearch
      rw [hcaps] at hsv
      refine ⟨natOfDigits g, hsv.symm, ?_⟩
      rw [← hsv]
      exact parse_glucose_val (natOfDigits g)
  · intro s hs
    have hs2 : (search bpPattern (upperStr text)).map
        (fun r => r.caps.getD 0 [] ++ '/' :: (r.caps.getD 1 [] ++ sl " mmHg"))
        = some s := hs
    cases hfs : search bpPattern (upperStr text) with
    | none =>
      rw [hfs] at hs2
      exact absurd hs2 (by simp)
    | some r =>
      rw [hfs] at hs2
      have hsv : r.caps.getD 0 [] ++ '/' :: (r.caps.getD 1 [] ++ sl " mmHg") = s :=
        Option.some.inj hs2
      obtain ⟨g1, g2, hcaps, hl1, hl2⟩ := search_two_groups bpPattern _ r
        rdig23 rdig23 bpPattern_grps.1 bpPattern_grps.2 hfs
      rw [hcaps] at hsv
      obtain ⟨hne1, hd1⟩ := Lang_rdig23 hl1
      obtain ⟨hne2, hd2⟩ := Lang_rdig23 hl2
      refine ⟨g1, g2, hsv.symm, ?_⟩
      rw [← hsv]
      exact parse_bp_val g1 g2 hd1 hne1 hd2 hne2
  · intro s hs
    have hs2 : (firstSearch cholesterolPatterns (upperStr text)).map
        (fun r => r.caps.getD 0 [] ++ sl " mg/dL") = some s := hs
    cases hfs : firstSearch cholesterolPatterns (upperStr text) with
    | none =>
      rw [hfs] at hs2
      exact absurd hs2 (by simp)
    | some r =>
      rw [hfs] at hs2
      have hsv : r.caps.getD 0 [] ++ sl " mg/dL" = s := Option.some.inj hs2
      obtain ⟨p, hp, hsearch⟩ := firstSearch_sound _ _ _ hfs
      obtain ⟨hw, hg⟩ := cholesterolPatterns_grps p hp
      obtain ⟨g, hcaps, hlang⟩ := search_one_group p _ r rintG hw hg hsearch
      rw [hcaps] at hsv
      obtain ⟨hne, hd⟩ := Lang_rintG hlang
      refine ⟨g, hsv.symm, ?_⟩
      rw [← hsv]
      exact parse_chol_val g hd hne

/-- Witness for C2 on a concrete document: all four value strings are
produced in canonical format and re-parse exactly. -/
theorem C2_value_roundtrip_witness :
    (extract_medical_metrics (sl "HbA1c: 6.8% Glucose: 128 mg/dL BP: 135/85 Cholesterol: 210")).hba1c
        = some (sl "6.8%") ∧
    (∃ g, sl "6.8%" = canonFloat g ++ ['%'] ∧
      parse_hba1c (sl "6.8%") = some (litVal g)) ∧
    (extract_medical_metrics (sl "HbA1c: 6.8% Glucose: 128 mg/dL BP: 135/85 Cholesterol: 210")).glucose
        = some (sl "128 mg/dL") ∧
    (∃ n : ℕ, sl "128 mg/dL" = natRepr n ++ sl " mg/dL" ∧
      parse_int_tok (sl "128 mg/dL") = some (n : ℤ) ∧
      parse_float_tok (sl "128 mg/dL") = some (n : ℚ)) ∧
    (extract_medical_metrics (sl "HbA1c: 6.8% Glucose: 128 mg/dL BP: 135/85 Cholesterol: 210")).blood_pressure
        = some (sl "135/85 mmHg") ∧
    (∃ g1 g2, sl "135/85 mmHg" = g1 ++ '/' :: (g2 ++ sl " mmHg") ∧
      parse_bp (sl "135/85 mmHg")
        = some ((natOfDigits g1 : ℤ), (natOfDigits g2 : ℤ)) ∧
      parse_bp_sys (sl "135/85 mmHg") = some ((natOfDigits g1 : ℤ))) ∧
    (extract_medical_metrics (sl "HbA1c: 6.8% Glucose: 128 mg/dL BP: 135/85 Cholesterol: 210")).cholesterol
        = some (sl "210 mg/dL") ∧
    (∃ g, sl "210 mg/dL" = g ++ sl " mg/dL" ∧
      parse_int_tok (sl "210 mg/dL") = some ((natOfDigits g : ℤ))) := by
  refine ⟨by decide,
    (C2_value_roundtrip (sl "HbA1c: 6.8% Glucose: 128 mg/dL BP: 135/85 Cholesterol: 210")).1 (sl "6.8%") (by decide),
    by decide,
    (C2_value_roundtrip (sl "HbA1c: 6.8% Glucose: 128 mg/dL BP: 135/85 Cholesterol: 210")).2.1 (sl "128 mg/dL") (by decide),
    by decide,
    (C2_value_roundtrip (sl "HbA1c: 6.8% Glucose: 128 mg/dL BP: 135/85 Cholesterol: 210")).2.2.1 (sl "135/85 mmHg") (by decide),
    by decide,
    (C2_value_roundtrip (sl "HbA1c: 6.8% Glucose: 128 mg/dL BP: 135/85 Cholesterol: 210")).2.2.2 (sl "210 mg/dL") (by decide)⟩

end MediTwin
